import Mathlib

/-!
# Verification of the ESG calculation/validation engine

Shallow embedding of `backend/app/core/data_validator.py` and
`backend/app/core/esg_calculator.py`.

Conventions of the embedding:

* Python numbers are modelled by `PyRat`, an unnormalized fraction with an
  `Int` numerator and a `Nat` denominator.  All numbers built by the engine
  itself have a positive denominator (`PyRat.wf`); `PyRat.toRat` maps a
  fraction to the rational number it denotes, and bridge lemmas connect the
  executable comparisons with the order on `ℚ`.
* Dynamically typed Python values (`Any`) are modelled by `Val`: `None`,
  `bool`, `int`, `float`, `str`, `list` and `dict` (string keyed, as used by
  the engine).  `bool` is a subclass of `int` in Python, which is reflected
  in `Val.asNum?` and `Val.isInstInt`.
* Operations that can raise in Python (`in` on a non-container,
  `.get` on a non-dict, ordering a non-number against a number, iterating a
  non-iterable into a set, arithmetic on a non-number) return
  `Except String _` carrying the exception class name.
-/

/-- An unnormalized fraction `n / d`.  Python's numeric tower (int/float) is
modelled by exact fractions; the engine performs only `+ - * /` on them. -/
structure PyRat where
  n : Int
  d : Nat
deriving DecidableEq, Repr

namespace PyRat

/-- The rational number denoted by the fraction (junk `d = 0` maps to `0`
denominator, i.e. division by zero in `ℚ`, which is `0`). -/
def toRat (q : PyRat) : ℚ := (q.n : ℚ) / (q.d : ℚ)

/-- Well-formed fractions: positive denominator.  Every number the engine
itself constructs is well-formed. -/
def wf (q : PyRat) : Prop := 0 < q.d

instance (q : PyRat) : Decidable q.wf := inferInstanceAs (Decidable (0 < q.d))

/-- Embed an integer. -/
def ofInt (i : Int) : PyRat := ⟨i, 1⟩

/-- Embed a natural number (used for counts and list lengths). -/
def ofNat (m : Nat) : PyRat := ⟨(m : Int), 1⟩

def add (a b : PyRat) : PyRat := ⟨a.n * (b.d : Int) + b.n * (a.d : Int), a.d * b.d⟩

def sub (a b : PyRat) : PyRat := ⟨a.n * (b.d : Int) - b.n * (a.d : Int), a.d * b.d⟩

def mul (a b : PyRat) : PyRat := ⟨a.n * b.n, a.d * b.d⟩

/-- Division.  The engine only ever divides by numbers it has checked to be
nonzero (positive counts, guarded areas/employees), so the `b.n = 0` branch
is never reached on engine paths; it is given the total value `0`, matching
`x / 0 = 0` on the `ℚ` side. -/
def div (a b : PyRat) : PyRat :=
  if b.n = 0 then ⟨0, 1⟩
  else if b.n < 0 then ⟨-(a.n * (b.d : Int)), a.d * b.n.natAbs⟩
  else ⟨a.n * (b.d : Int), a.d * b.n.natAbs⟩

/-- Executable `≤` (cross multiplication; agrees with `ℚ` on well-formed
fractions). -/
def le (a b : PyRat) : Bool := a.n * (b.d : Int) ≤ b.n * (a.d : Int)

/-- Executable `<`. -/
def lt (a b : PyRat) : Bool := a.n * (b.d : Int) < b.n * (a.d : Int)

/-- Executable `==`. -/
def eqb (a b : PyRat) : Bool := a.n * (b.d : Int) == b.n * (a.d : Int)

/-- Python `min(a, b)` (returns `a` on ties). -/
def pyMin (a b : PyRat) : PyRat := if lt b a then b else a

/-- Python `max(a, b)` (returns `a` on ties). -/
def pyMax (a b : PyRat) : PyRat := if lt a b then b else a

end PyRat

/-- A dynamically typed Python value (the fragment used by the engine). -/
inductive Val where
  | none
  | bool (b : Bool)
  | int (i : Int)
  | float (q : PyRat)
  | str (s : String)
  | list (l : List Val)
  | dict (d : List (String × Val))

/-- Structural equality on `Val` (used by Python `==` for non-numeric
values; the numeric cross-type cases `1 == 1.0 == True` are handled by
`pyEq` before falling back to this.  Equality between numbers nested inside
containers is structural in the model). -/
def Val.structEq : Val → Val → Bool
  | .none, .none => true
  | .bool a, .bool b => a == b
  | .int a, .int b => a == b
  | .float a, .float b => a == b
  | .str a, .str b => a == b
  | .list a, .list b => go a b
  | .dict a, .dict b => goD a b
  | _, _ => false
where
  go : List Val → List Val → Bool
    | [], [] => true
    | x :: xs, y :: ys => x.structEq y && go xs ys
    | _, _ => false
  goD : List (String × Val) → List (String × Val) → Bool
    | [], [] => true
    | (k, x) :: xs, (k', y) :: ys => k == k' && x.structEq y && goD xs ys
    | _, _ => false

/-- Python dictionaries with string keys, in insertion order. -/
abbrev PyDict := List (String × Val)

/-- First-match association lookup (Python dict keys are unique, so this is
ordinary dict lookup). -/
def dlookup (d : PyDict) (k : String) : Option Val :=
  match d with
  | [] => Option.none
  | (k', v) :: rest => if k' = k then some v else dlookup rest k

/-- The number denoted by a value, if it is one.  Python's `bool` is a
subclass of `int` (`True == 1`), so booleans are numbers. -/
def Val.asNum? : Val → Option PyRat
  | .bool b => some (PyRat.ofInt (if b then 1 else 0))
  | .int i => some (PyRat.ofInt i)
  | .float q => some q
  | _ => Option.none

/-- `isinstance(v, (int, float))`. -/
def Val.isNum (v : Val) : Bool := v.asNum?.isSome

/-- `isinstance(v, int)` (booleans are ints in Python). -/
def Val.isInstInt : Val → Bool
  | .bool _ => true
  | .int _ => true
  | _ => false

/-- The integer denoted by a value satisfying `isinstance(v, int)`. -/
def Val.asInt : Val → Int
  | .bool b => if b then 1 else 0
  | .int i => i
  | _ => 0

/-- Python truthiness (`bool(v)`). -/
def Val.truthy : Val → Bool
  | .none => false
  | .bool b => b
  | .int i => i != 0
  | .float q => q.n != 0
  | .str s => s ≠ ""
  | .list l => !l.isEmpty
  | .dict d => !d.isEmpty

/-- Python `==` on values: numeric cross-type equality first, structural
equality otherwise. -/
def pyEq (v w : Val) : Bool :=
  match v.asNum?, w.asNum? with
  | some a, some b => a.eqb b
  | _, _ => v.structEq w

/-- `x in l` for a Python list `l`. -/
def pyMemList (v : Val) (l : List Val) : Bool := l.any (fun e => pyEq e v)

/-- Substring test on `List Char` (Python `needle in haystack` for strings). -/
def charsInfix (needle hay : List Char) : Bool :=
  (List.range (hay.length + 1)).any (fun i => needle.isPrefixOf (hay.drop i))

/-- Python `key in v`.  Dict: key membership; list: element equality;
string: substring; anything else raises `TypeError`. -/
def Val.hasKey? : Val → String → Except String Bool
  | .dict d, k => .ok (dlookup d k).isSome
  | .list l, k => .ok (pyMemList (Val.str k) l)
  | .str s, k => .ok (charsInfix k.data s.data)
  | _, _ => .error "TypeError"

/-- Python `v[k]` with a string key: only dicts support it.  Callers always
guard with `k in v` first, so the dict branch never misses (a miss would be
`KeyError`). -/
def Val.getItem? : Val → String → Except String Val
  | .dict d, k =>
    match dlookup d k with
    | some v => .ok v
    | Option.none => .error "KeyError"
  | _, _ => .error "TypeError"

/-- Python `v.get(k, dflt)`: only dicts have `.get` (`AttributeError`
otherwise). -/
def Val.getD? : Val → String → Val → Except String Val
  | .dict d, k, dflt => .ok ((dlookup d k).getD dflt)
  | _, _, _ => .error "AttributeError"

/-- Coerce a value to a number for arithmetic (`+`, `* 12`, `sum(...)`);
raises `TypeError` for non-numbers (Python would raise at the enclosing
arithmetic operation). -/
def Val.toNum? (v : Val) : Except String PyRat :=
  match v.asNum? with
  | some q => .ok q
  | Option.none => .error "TypeError"

/-- Python `v < q` against a numeric literal; ordering a non-number against
a number raises `TypeError`. -/
def pyLtNum? (v : Val) (q : PyRat) : Except String Bool :=
  match v.asNum? with
  | some a => .ok (a.lt q)
  | Option.none => .error "TypeError"

/-- Python `v > q` against a numeric literal. -/
def pyGtNum? (v : Val) (q : PyRat) : Except String Bool :=
  match v.asNum? with
  | some a => .ok (q.lt a)
  | Option.none => .error "TypeError"

/-- All fractions stored inside a value are well-formed (positive
denominators).  Adversarial model values can carry junk fractions; the
numeric claims assume this away. -/
def Val.wfNums : Val → Bool
  | .float q => decide q.wf
  | .list l => go l
  | .dict d => goD d
  | _ => true
where
  go : List Val → Bool
    | [] => true
    | x :: xs => x.wfNums && go xs
  goD : List (String × Val) → Bool
    | [] => true
    | (_, x) :: xs => x.wfNums && goD xs

deriving instance DecidableEq for Except

/-- The computation produced a result (raised no exception). -/
def ExceptOk {ε α : Type} : Except ε α → Bool
  | Except.ok _ => true
  | Except.error _ => false

/-! ## Embedding of `data_validator.py` -/

/-- `ValidationSeverity`. -/
inductive Severity where
  | error
  | warning
  | info
deriving DecidableEq, Repr

/-- `ValidationIssue` (dataclass). -/
structure ValidationIssue where
  severity : Severity
  field : String
  message : String
  value : Option Val := Option.none
  suggestion : Option String := Option.none

/-- `ValidationResult` (dataclass). -/
structure ValidationResult where
  is_valid : Bool
  completeness_score : PyRat
  quality_score : PyRat
  issues : List ValidationIssue

/-- `len([i for i in issues if i.severity == s])`. -/
def countSeverity (issues : List ValidationIssue) (s : Severity) : Nat :=
  (issues.filter (fun i => i.severity == s)).length

def requiredCompanyFields : List String := ["name", "sector", "employees", "establishedYear"]

def requiredLocationFields : List String := ["name", "totalFloorArea", "utilities"]

def requiredUtilityFields : List String := ["electricity", "water"]

def optionalUtilityFields : List String := ["districtCooling", "naturalGas", "lpg"]

def validSectors : List String :=
  ["hospitality", "construction", "manufacturing",
   "education", "healthcare", "logistics", "retail", "professional_services"]

def validCategories : List String := ["environmental", "social", "governance"]

def validStatuses : List String := ["completed", "in_progress", "to_do"]

/-- `field not in company_data or not company_data[field]` (dict case, total). -/
def missingOrEmpty (d : PyDict) (f : String) : Bool :=
  match dlookup d f with
  | Option.none => true
  | some v => !v.truthy

/-- `str.title()` for the single lowercase words passed to it. -/
def strTitle (s : String) : String :=
  match s.data with
  | [] => ""
  | c :: rest => String.mk (c.toUpper :: rest)

/-- Python `"%.1f"` formatting of the nonnegative rates the validator puts in
issue `value` strings (round half up; the exact rounding convention of the
formatted display string influences no control flow or score). -/
def fmtFixed1 (q : PyRat) : String :=
  let t : Int := (q.n * 20 + (q.d : Int)) / (2 * (q.d : Int))
  toString (t / 10) ++ "." ++ toString (t % 10)

/-- `_validate_company_data`, required-field loop. -/
def companyRequiredIssues (company : PyDict) : List ValidationIssue :=
  requiredCompanyFields.filterMap (fun f =>
    if missingOrEmpty company f then
      some { severity := .error, field := "company." ++ f,
             message := "Required field '" ++ f ++ "' is missing or empty",
             suggestion := some ("Please provide " ++ f ++ " information") }
    else Option.none)

/-- `_validate_company_data`, employees check. -/
def companyEmployeesIssues (company : PyDict) : List ValidationIssue :=
  match dlookup company "employees" with
  | Option.none => []
  | some employees =>
    match employees.asNum? with
    | Option.none =>
      [{ severity := .warning, field := "company.employees",
         message := "Employee count should be a positive number",
         value := some employees,
         suggestion := some "Provide accurate employee count for better calculations" }]
    | some q =>
      if q.le (PyRat.ofInt 0) then
        [{ severity := .warning, field := "company.employees",
           message := "Employee count should be a positive number",
           value := some employees,
           suggestion := some "Provide accurate employee count for better calculations" }]
      else []

/-- `_validate_company_data`, establishedYear check. -/
def companyYearIssues (company : PyDict) : List ValidationIssue :=
  match dlookup company "establishedYear" with
  | Option.none => []
  | some year =>
    if !year.isInstInt || year.asInt < 1900 || year.asInt > 2024 then
      [{ severity := .warning, field := "company.establishedYear",
         message := "Establishment year seems invalid",
         value := some year,
         suggestion := some "Provide a valid year between 1900 and 2024" }]
    else []

/-- `_validate_company_data`, sector check. -/
def companySectorIssues (company : PyDict) : List ValidationIssue :=
  match dlookup company "sector" with
  | Option.none => []
  | some sector =>
    if !(validSectors.any (fun s => pyEq sector (Val.str s))) then
      [{ severity := .warning, field := "company.sector",
         message := "Sector not recognized for benchmarking",
         value := some sector,
         suggestion := some ("Use one of: hospitality, construction, manufacturing, " ++
           "education, healthcare, logistics, retail, professional_services") }]
    else []

/-- `_validate_company_data`. -/
def validateCompanyData (company : PyDict) : List ValidationIssue :=
  companyRequiredIssues company ++ companyEmployeesIssues company ++
    companyYearIssues company ++ companySectorIssues company

/-- One iteration of the required-location-field loop:
`if field not in location or not location[field]`. -/
def locationFieldIssue (location : Val) (locPrefix f : String) :
    Except String (List ValidationIssue) := do
  let present ← location.hasKey? f
  let bad ← if present then do
      let v ← location.getItem? f
      pure (!v.truthy)
    else pure true
  if bad then
    pure [{ severity := .error, field := locPrefix ++ "." ++ f,
            message := "Required location field '" ++ f ++ "' is missing",
            suggestion := some ("Provide " ++ f ++ " for accurate calculations") }]
  else pure []

def locationFieldIssues (location : Val) (locPrefix : String) :
    List String → Except String (List ValidationIssue)
  | [] => pure []
  | f :: rest => do
      let here ← locationFieldIssue location locPrefix f
      let more ← locationFieldIssues location locPrefix rest
      pure (here ++ more)

/-- `_validate_location_data`, floor-area check. -/
def floorAreaIssues (location : Val) (locPrefix : String) :
    Except String (List ValidationIssue) := do
  let present ← location.hasKey? "totalFloorArea"
  if present then do
    let area ← location.getItem? "totalFloorArea"
    match area.asNum? with
    | Option.none =>
        pure [{ severity := .error, field := locPrefix ++ ".totalFloorArea",
                message := "Floor area must be a positive number",
                value := some area,
                suggestion := some "Provide floor area in square meters" }]
    | some q =>
        if q.le (PyRat.ofInt 0) then
          pure [{ severity := .error, field := locPrefix ++ ".totalFloorArea",
                  message := "Floor area must be a positive number",
                  value := some area,
                  suggestion := some "Provide floor area in square meters" }]
        else if (PyRat.ofInt 1000000).lt q then
          pure [{ severity := .warning, field := locPrefix ++ ".totalFloorArea",
                  message := "Floor area seems unusually large",
                  value := some area,
                  suggestion := some "Verify floor area is in square meters" }]
        else pure []
  else pure []

/-- One iteration of the required-utilities loop of
`_validate_utilities_data`. -/
def requiredUtilityIssue1 (utilities : Val) (locPrefix u : String) :
    Except String (List ValidationIssue) := do
  let present ← utilities.hasKey? u
  if !present then
    pure [({ severity := .warning, field := locPrefix ++ ".utilities." ++ u,
             message := "Missing " ++ u ++ " consumption data",
             suggestion := some ("Add " ++ u ++ " data for complete carbon footprint calculation") } : ValidationIssue)]
  else do
    let uv ← utilities.getItem? u
    let consumption ← uv.getD? "monthlyConsumption" (Val.int 0)
    match consumption.asNum? with
    | Option.none =>
        pure [({ severity := .error,
                 field := locPrefix ++ ".utilities." ++ u ++ ".monthlyConsumption",
                 message := strTitle u ++ " consumption must be non-negative",
                 value := some consumption,
                 suggestion := some "Provide monthly consumption as a positive number" } : ValidationIssue)]
    | some q =>
        if q.lt (PyRat.ofInt 0) then
          pure [({ severity := .error,
                   field := locPrefix ++ ".utilities." ++ u ++ ".monthlyConsumption",
                   message := strTitle u ++ " consumption must be non-negative",
                   value := some consumption,
                   suggestion := some "Provide monthly consumption as a positive number" } : ValidationIssue)]
        else if q.eqb (PyRat.ofInt 0) then
          pure [({ severity := .warning,
                   field := locPrefix ++ ".utilities." ++ u ++ ".monthlyConsumption",
                   message := "Zero " ++ u ++ " consumption seems unusual",
                   suggestion := some "Verify consumption data is accurate" } : ValidationIssue)]
        else pure []

/-- `_validate_utilities_data`, required-utilities loop. -/
def requiredUtilityIssues (utilities : Val) (locPrefix : String) :
    List String → Except String (List ValidationIssue)
  | [] => pure []
  | u :: rest => do
      let here ← requiredUtilityIssue1 utilities locPrefix u
      let more ← requiredUtilityIssues utilities locPrefix rest
      pure (here ++ more)

/-- One iteration of the optional-utilities loop of
`_validate_utilities_data` (the `< 0` compare is unguarded in the source, so
a non-numeric consumption raises). -/
def optionalUtilityIssue1 (utilities : Val) (locPrefix u : String) :
    Except String (List ValidationIssue) := do
  let present ← utilities.hasKey? u
  if present then do
    let uv ← utilities.getItem? u
    let consumption ← uv.getD? "monthlyConsumption" (Val.int 0)
    let neg ← pyLtNum? consumption (PyRat.ofInt 0)
    if neg then
      pure [({ severity := .error,
               field := locPrefix ++ ".utilities." ++ u ++ ".monthlyConsumption",
               message := u ++ " consumption cannot be negative",
               value := some consumption } : ValidationIssue)]
    else pure []
  else pure []

/-- `_validate_utilities_data`, optional-utilities loop. -/
def optionalUtilityIssues (utilities : Val) (locPrefix : String) :
    List String → Except String (List ValidationIssue)
  | [] => pure []
  | u :: rest => do
      let here ← optionalUtilityIssue1 utilities locPrefix u
      let more ← optionalUtilityIssues utilities locPrefix rest
      pure (here ++ more)

/-- `_validate_utilities_data`. -/
def validateUtilitiesData (utilities : Val) (locPrefix : String) :
    Except String (List ValidationIssue) := do
  let req ← requiredUtilityIssues utilities locPrefix requiredUtilityFields
  let opt ← optionalUtilityIssues utilities locPrefix optionalUtilityFields
  pure (req ++ opt)

/-- The `if "utilities" in location:` step of the per-location loop. -/
def locationUtilitiesIssues (location : Val) (locPrefix : String) :
    Except String (List ValidationIssue) := do
  let present ← location.hasKey? "utilities"
  if present then do
    let utilities ← location.getItem? "utilities"
    validateUtilitiesData utilities locPrefix
  else pure []

/-- Body of the per-location loop of `_validate_location_data`. -/
def validateOneLocation (i : Nat) (location : Val) :
    Except String (List ValidationIssue) := do
  let locPrefix := "locations[" ++ toString i ++ "]"
  let fieldIssues ← locationFieldIssues location locPrefix requiredLocationFields
  let areaIssues ← floorAreaIssues location locPrefix
  let utilIssues ← locationUtilitiesIssues location locPrefix
  pure (fieldIssues ++ areaIssues ++ utilIssues)

def locationsLoop (i : Nat) : List Val → Except String (List ValidationIssue)
  | [] => pure []
  | loc :: rest => do
      let here ← validateOneLocation i loc
      let more ← locationsLoop (i + 1) rest
      pure (here ++ more)

/-- `_validate_location_data`. -/
def validateLocationData (locationData : List Val) :
    Except String (List ValidationIssue) :=
  if locationData.isEmpty then
    pure [{ severity := .error, field := "locations",
            message := "At least one location is required for carbon footprint calculations",
            suggestion := some "Add facility information with utility consumption data" }]
  else locationsLoop 0 locationData

/-- Body of the per-answer loop of `_validate_scoping_answers`; returns the
issues plus whether the answer counted as unanswered. -/
def answerIssues (questionId : String) (answerData : Val) :
    List ValidationIssue × Bool :=
  match answerData with
  | Val.dict d =>
    let fieldWarns := (["question", "answer", "frameworks", "category"].filter
        (fun f => (dlookup d f).isNone)).map (fun f =>
        ({ severity := .warning, field := "scoping_answers." ++ questionId ++ "." ++ f,
           message := "Missing " ++ f ++ " in answer data" } : ValidationIssue))
    let answer := (dlookup d "answer").getD Val.none
    let unanswered := answer.structEq Val.none || pyEq answer (Val.str "")
    let answerInfo := if unanswered then
        [({ severity := .info, field := "scoping_answers." ++ questionId ++ ".answer",
            message := "Question not answered",
            suggestion := some "Complete answer for better ESG scoring" } : ValidationIssue)]
      else []
    let category := (dlookup d "category").getD Val.none
    let catWarn := if category.truthy &&
        !(validCategories.any (fun c => pyEq category (Val.str c))) then
        [({ severity := .warning,
            field := "scoping_answers." ++ questionId ++ ".category",
            message := "Invalid ESG category", value := some category,
            suggestion := some "Use one of: environmental, social, governance" } : ValidationIssue)]
      else []
    (fieldWarns ++ answerInfo ++ catWarn, unanswered)
  | _ =>
    ([{ severity := .error, field := "scoping_answers." ++ questionId,
        message := "Invalid answer format",
        suggestion := some "Answer should include question, answer, frameworks, and category" }],
     false)

/-- `_validate_scoping_answers` (total: it only performs dict operations). -/
def validateScopingAnswers (answers : PyDict) : List ValidationIssue :=
  if answers.isEmpty then
    [{ severity := .error, field := "scoping_answers",
       message := "ESG scoping questionnaire responses are required",
       suggestion := some "Complete ESG assessment questionnaire" }]
  else
    let results := answers.map (fun p => answerIssues p.1 p.2)
    let issues := (results.map Prod.fst).flatten
    let unansweredCount := (results.filter (fun r => r.2)).length
    let aggregate :=
      if ((PyRat.ofNat answers.length).mul ⟨5, 10⟩).lt (PyRat.ofNat unansweredCount) then
        [({ severity := .warning, field := "scoping_answers",
            message := "Many questions remain unanswered",
            suggestion := some "Complete more questions for accurate ESG assessment" } : ValidationIssue)]
      else []
    issues ++ aggregate

/-- One iteration of the required-task-field loop. -/
def taskFieldIssue (task : Val) (taskPrefix f : String) :
    Except String (List ValidationIssue) := do
  let present ← task.hasKey? f
  let bad ← if present then do
      let v ← task.getItem? f
      pure (!v.truthy)
    else pure true
  if bad then
    pure [{ severity := .warning, field := taskPrefix ++ "." ++ f,
            message := "Task missing " ++ f,
            suggestion := some ("Provide " ++ f ++ " for better task management") }]
  else pure []

def taskFieldIssues (task : Val) (taskPrefix : String) :
    List String → Except String (List ValidationIssue)
  | [] => pure []
  | f :: rest => do
      let here ← taskFieldIssue task taskPrefix f
      let more ← taskFieldIssues task taskPrefix rest
      pure (here ++ more)

/-- Body of the per-task loop of `_validate_tasks_data`; returns the issues,
whether the task counts as completed, and whether it counts as
high-priority-incomplete. -/
def taskIssues (i : Nat) (task : Val) :
    Except String (List ValidationIssue × Bool × Bool) := do
  let taskPrefix := "tasks[" ++ toString i ++ "]"
  let fieldIssues ← taskFieldIssues task taskPrefix ["title", "category", "status", "priority"]
  let status ← task.getD? "status" Val.none
  let inValid := validStatuses.any (fun s => pyEq status (Val.str s))
  let statusIssues := if !inValid then
      [({ severity := .warning, field := taskPrefix ++ ".status",
          message := "Invalid task status", value := some status,
          suggestion := some "Use one of: completed, in_progress, to_do" } : ValidationIssue)]
    else []
  let isCompleted := inValid && pyEq status (Val.str "completed")
  let priority ← task.getD? "priority" Val.none
  let highIncomplete := pyEq priority (Val.str "high") && !(pyEq status (Val.str "completed"))
  pure (fieldIssues ++ statusIssues, isCompleted, highIncomplete)

def tasksLoop (i : Nat) : List Val → Except String (List ValidationIssue × Nat × Nat)
  | [] => pure ([], 0, 0)
  | t :: rest => do
      let (issues, isC, isH) ← taskIssues i t
      let (restIssues, c, h) ← tasksLoop (i + 1) rest
      pure (issues ++ restIssues, (if isC then 1 else 0) + c, (if isH then 1 else 0) + h)

/-- `_validate_tasks_data`. -/
def validateTasksData (tasks : List Val) : Except String (List ValidationIssue) :=
  if tasks.isEmpty then
    pure [{ severity := .warning, field := "tasks", message := "No tasks found",
            suggestion := some "Create ESG improvement tasks for better compliance tracking" }]
  else do
    let (issues, completedCount, highPriorityIncomplete) ← tasksLoop 0 tasks
    let completionRate := ((PyRat.ofNat completedCount).div (PyRat.ofNat tasks.length)).mul (PyRat.ofInt 100)
    let rateIssues := if completionRate.lt (PyRat.ofInt 30) then
        [({ severity := .info, field := "tasks", message := "Low task completion rate",
            value := some (Val.str (fmtFixed1 completionRate ++ "%")),
            suggestion := some "Focus on completing more ESG improvement tasks" } : ValidationIssue)]
      else []
    let highIssues := if highPriorityIncomplete > 0 then
        [({ severity := .warning, field := "tasks",
            message := toString highPriorityIncomplete ++ " high-priority tasks incomplete",
            suggestion := some "Prioritize completing high-impact ESG tasks" } : ValidationIssue)]
      else []
    pure (issues ++ rateIssues ++ highIssues)

/-- `sum(loc.get("totalFloorArea", 0) for loc in location_data)`. -/
def sumFloorAreas : List Val → Except String PyRat
  | [] => pure (PyRat.ofInt 0)
  | loc :: rest => do
      let v ← loc.getD? "totalFloorArea" (Val.int 0)
      let q ← v.toNum?
      let restSum ← sumFloorAreas rest
      pure (q.add restSum)

/-- Python set insertion (by `==`). -/
def setAdd (s : List Val) (v : Val) : List Val :=
  if s.any (fun e => pyEq e v) then s else s ++ [v]

/-- Python `set.update(v)`: iterates `v`; lists add their (hashable)
elements, strings add their characters, dicts add their keys; anything else
raises `TypeError`, as does an unhashable element. -/
def setUpdate (s : List Val) : Val → Except String (List Val)
  | Val.str t => pure (t.data.foldl (fun acc c => setAdd acc (Val.str c.toString)) s)
  | Val.list l => l.foldlM (fun acc e =>
      match e with
      | Val.list _ => Except.error "TypeError"
      | Val.dict _ => Except.error "TypeError"
      | _ => pure (setAdd acc e)) s
  | Val.dict d => pure (d.foldl (fun acc p => setAdd acc (Val.str p.1)) s)
  | _ => Except.error "TypeError"

/-- Collects `answer["frameworks"]` over dict-valued answers. -/
def answerFrameworksSet (answers : PyDict) : Except String (List Val) :=
  answers.foldlM (fun acc p =>
    match p.2 with
    | Val.dict d =>
      match dlookup d "frameworks" with
      | some fv => setUpdate acc fv
      | Option.none => pure acc
    | _ => pure acc) []

/-- Collects `task["frameworks"]` over tasks (`"frameworks" in task` raises
for non-iterable tasks). -/
def taskFrameworksSet (tasks : List Val) : Except String (List Val) :=
  tasks.foldlM (fun acc t => do
    let present ← t.hasKey? "frameworks"
    if present then do
      let fv ← t.getItem? "frameworks"
      setUpdate acc fv
    else pure acc) []

/-- The consumption-vs-company-size part of `_validate_data_consistency`. -/
def areaConsistencyIssues (company : PyDict) (locations : List Val) :
    Except String (List ValidationIssue) := do
  if !locations.isEmpty && (dlookup company "employees").isSome then do
    let totalArea ← sumFloorAreas locations
    let employees := (dlookup company "employees").getD Val.none
    if (PyRat.ofInt 0).lt totalArea then do
      let pos ← pyGtNum? employees (PyRat.ofInt 0)
      if pos then do
        let empQ ← employees.toNum?
        let areaPerEmployee := totalArea.div empQ
        if areaPerEmployee.lt (PyRat.ofInt 5) then
          pure [({ severity := .warning, field := "consistency.area_per_employee",
                   message := "Very low floor area per employee",
                   value := some (Val.str (fmtFixed1 areaPerEmployee ++ " sqm/employee")),
                   suggestion := some "Verify floor area and employee count accuracy" } : ValidationIssue)]
        else if (PyRat.ofInt 100).lt areaPerEmployee then
          pure [({ severity := .warning, field := "consistency.area_per_employee",
                   message := "Very high floor area per employee",
                   value := some (Val.str (fmtFixed1 areaPerEmployee ++ " sqm/employee")),
                   suggestion := some "Verify floor area and employee count accuracy" } : ValidationIssue)]
        else pure []
      else pure []
    else pure []
  else pure []

/-- `_validate_data_consistency`. -/
def validateDataConsistency (company : PyDict) (locations : List Val)
    (answers : PyDict) (tasks : List Val) : Except String (List ValidationIssue) := do
  -- (the source also reads company_data.get("sector", "unknown") but never uses it)
  let areaIssues ← areaConsistencyIssues company locations
  let answerFws ← answerFrameworksSet answers
  let taskFws ← taskFrameworksSet tasks
  let fwIssues :=
    if !answerFws.isEmpty && !taskFws.isEmpty then
      let missingInTasks := answerFws.filter (fun v => !(taskFws.any (fun w => pyEq w v)))
      if !missingInTasks.isEmpty then
        [({ severity := .info, field := "consistency.frameworks",
            message := "Some frameworks from answers not found in tasks",
            value := some (Val.list missingInTasks),
            suggestion := some "Ensure tasks cover all applicable frameworks" } : ValidationIssue)]
      else []
    else []
  pure (areaIssues ++ fwIssues)

/-- Truthy-field count over a dict (company bucket of the completeness
score). -/
def countTruthyDictFields (d : PyDict) (fields : List String) : Nat :=
  (fields.filter (fun f => match dlookup d f with
    | some v => v.truthy
    | Option.none => false)).length

/-- `field in v and v[field]` for one field of a dynamically typed record. -/
def countTruthyValField1 (v : Val) (f : String) : Except String Nat := do
  let present ← v.hasKey? f
  if present then do
    let x ← v.getItem? f
    pure (if x.truthy then (1 : Nat) else 0)
  else pure 0

/-- `field in v and v[field]` count for a dynamically typed record. -/
def countTruthyValFields (v : Val) : List String → Except String Nat
  | [] => pure 0
  | f :: rest => do
      let here ← countTruthyValField1 v f
      let more ← countTruthyValFields v rest
      pure (here + more)

/-- Sum of per-location field-completeness fractions. -/
def locCompletenessSum : List Val → Except String PyRat
  | [] => pure (PyRat.ofInt 0)
  | loc :: rest => do
      let sc ← countTruthyValFields loc requiredLocationFields
      let restSum ← locCompletenessSum rest
      pure (((PyRat.ofNat sc).div (PyRat.ofNat requiredLocationFields.length)).add restSum)

/-- `answer.get("answer") not in [None, ""]` count over dict-valued answers. -/
def answeredCount (answers : PyDict) : Nat :=
  (answers.filter (fun p =>
    match p.2 with
    | Val.dict d =>
      let a := (dlookup d "answer").getD Val.none
      !(pyEq a Val.none || pyEq a (Val.str ""))
    | _ => false)).length

/-- `all(field in task and task[field] for field in [...])` (short-circuit). -/
def taskFieldsComplete (t : Val) : List String → Except String Bool
  | [] => pure true
  | f :: rest => do
      let present ← t.hasKey? f
      if present then do
        let v ← t.getItem? f
        if v.truthy then taskFieldsComplete t rest else pure false
      else pure false

def countCompleteTasks : List Val → Except String Nat
  | [] => pure 0
  | t :: rest => do
      let c ← taskFieldsComplete t ["title", "category", "status"]
      let more ← countCompleteTasks rest
      pure ((if c then (1 : Nat) else 0) + more)

/-- Company bucket of `_calculate_completeness_score` (25 points). -/
def companyEarned (company : PyDict) : PyRat :=
  ((PyRat.ofNat (countTruthyDictFields company requiredCompanyFields)).div
      (PyRat.ofNat requiredCompanyFields.length)).mul (PyRat.ofInt 25)

/-- Location bucket of `_calculate_completeness_score` (25 points; zero
earned when the bucket is missing). -/
def locationsEarned (locations : List Val) : Except String PyRat :=
  if locations.isEmpty then pure (PyRat.ofInt 0) else do
    let s ← locCompletenessSum locations
    pure ((s.div (PyRat.ofNat locations.length)).mul (PyRat.ofInt 25))

/-- Answers bucket of `_calculate_completeness_score` (30 points). -/
def answersEarned (answers : PyDict) : PyRat :=
  if answers.isEmpty then PyRat.ofInt 0 else
    ((PyRat.ofNat (answeredCount answers)).div (PyRat.ofNat answers.length)).mul
      (PyRat.ofInt 30)

/-- Tasks bucket of `_calculate_completeness_score` (20 points). -/
def tasksEarned (tasks : List Val) : Except String PyRat :=
  if tasks.isEmpty then pure (PyRat.ofInt 0) else do
    let c ← countCompleteTasks tasks
    pure (((PyRat.ofNat c).div (PyRat.ofNat tasks.length)).mul (PyRat.ofInt 20))

/-- `_calculate_completeness_score`: `total_points` accumulates the four
bucket weights 25 + 25 + 30 + 20 = 100; `(earned / total) * 100` guarded by
`total_points > 0`. -/
def calcCompletenessScore (company : PyDict) (locations : List Val)
    (answers : PyDict) (tasks : List Val) : Except String PyRat := do
  let totalPoints := PyRat.ofInt 100
  let e2 ← locationsEarned locations
  let e4 ← tasksEarned tasks
  let earned := (((companyEarned company).add e2).add (answersEarned answers)).add e4
  if (PyRat.ofInt 0).lt totalPoints then
    pure ((earned.div totalPoints).mul (PyRat.ofInt 100))
  else
    pure (PyRat.ofInt 0)

/-- Per-issue quality penalty. -/
def issuePenalty (s : Severity) : PyRat :=
  match s with
  | .error => PyRat.ofInt 10
  | .warning => PyRat.ofInt 3
  | .info => PyRat.ofInt 1

/-- `_calculate_quality_score`. -/
def calcQualityScore (issues : List ValidationIssue) (completeness : PyRat) : PyRat :=
  let q := issues.foldl (fun acc i => acc.sub (issuePenalty i.severity)) completeness
  (PyRat.ofInt 0).pyMax ((PyRat.ofInt 100).pyMin q)

/-- `validate_report_data`. -/
def validateReportData (company : PyDict) (locations : List Val)
    (answers : PyDict) (tasks : List Val) : Except String ValidationResult := do
  let i1 := validateCompanyData company
  let i2 ← validateLocationData locations
  let i3 := validateScopingAnswers answers
  let i4 ← validateTasksData tasks
  let i5 ← validateDataConsistency company locations answers tasks
  let issues := (((i1 ++ i2) ++ i3) ++ i4) ++ i5
  let completenessScore ← calcCompletenessScore company locations answers tasks
  let qualityScore := calcQualityScore issues completenessScore
  let errorCount := countSeverity issues Severity.error
  let isValid := errorCount == 0 && (PyRat.ofInt 60).le completenessScore
  pure { is_valid := isValid, completeness_score := completenessScore,
         quality_score := qualityScore, issues := issues }

/-! ## Embedding of `esg_calculator.py` -/

/-- `ESGScores` (dataclass). -/
structure ESGScores where
  overall : PyRat
  environmental : PyRat
  social : PyRat
  governance : PyRat

/-- `CarbonFootprint` (dataclass). -/
structure CarbonFootprint where
  total_annual : PyRat
  scope1 : PyRat
  scope2 : PyRat
  emissions_per_sqm : PyRat
  emissions_per_employee : PyRat
deriving DecidableEq, Repr

/-- `ComplianceRate` (dataclass). -/
structure ComplianceRate where
  framework : String
  rate : PyRat
  completed : Nat
  total : Nat
deriving DecidableEq, Repr

/-- `BenchmarkComparison` (dataclass). -/
structure BenchmarkComparison where
  electricity_performance : String
  water_performance : String
  carbon_performance : String
  overall_ranking : String
deriving DecidableEq, Repr

/-- `EMISSION_FACTORS` (kg CO2e per unit). -/
def emissionFactorElectricity : PyRat := ⟨469, 1000⟩

def emissionFactorNaturalGas : PyRat := ⟨275, 100⟩

def emissionFactorLpg : PyRat := ⟨303, 100⟩

def emissionFactorDistrictCooling : PyRat := ⟨385, 1000⟩

/-- Sector-specific ESG category weights (`_get_sector_weights`),
including the default for unknown sectors. -/
structure SectorWeights where
  environmental : PyRat
  social : PyRat
  governance : PyRat
deriving DecidableEq, Repr

/-- `_get_sector_weights`: the `BusinessSector` keys are string-valued
enums, so the `.get(sector, default)` lookup is by the sector string. -/
def getSectorWeights (sector : String) : SectorWeights :=
  if sector = "hospitality" then ⟨⟨45, 100⟩, ⟨35, 100⟩, ⟨20, 100⟩⟩
  else if sector = "manufacturing" then ⟨⟨50, 100⟩, ⟨30, 100⟩, ⟨20, 100⟩⟩
  else if sector = "construction" then ⟨⟨45, 100⟩, ⟨35, 100⟩, ⟨20, 100⟩⟩
  else if sector = "healthcare" then ⟨⟨35, 100⟩, ⟨45, 100⟩, ⟨20, 100⟩⟩
  else if sector = "education" then ⟨⟨30, 100⟩, ⟨50, 100⟩, ⟨20, 100⟩⟩
  else if sector = "logistics" then ⟨⟨50, 100⟩, ⟨25, 100⟩, ⟨25, 100⟩⟩
  else ⟨⟨40, 100⟩, ⟨30, 100⟩, ⟨30, 100⟩⟩

/-- The overall-score combination in `calculate_esg_score` (lines 176-182):
`environmental * w_env + social * w_soc + governance * w_gov`. -/
def overallESGScore (sector : String) (environmental social governance : PyRat) : PyRat :=
  let weights := getSectorWeights sector
  ((environmental.mul weights.environmental).add
    (social.mul weights.social)).add (governance.mul weights.governance)

/-- One utility's contribution inside `_calculate_scope1/2_emissions`:
`if u in utilities: annual = monthly * 12; emissions += annual * factor / 1000`
(multiplying a non-number by the emission factor raises `TypeError`). -/
def utilContribution (utilities : Val) (u : String) (factor : PyRat) :
    Except String PyRat := do
  let present ← utilities.hasKey? u
  if present then do
    let uv ← utilities.getItem? u
    let monthly ← uv.getD? "monthlyConsumption" (Val.int 0)
    match monthly.asNum? with
    | some q => pure (((q.mul (PyRat.ofInt 12)).mul factor).div (PyRat.ofInt 1000))
    | Option.none => Except.error "TypeError"
  else pure (PyRat.ofInt 0)

/-- `_calculate_scope1_emissions` (natural gas + LPG). -/
def calcScope1Emissions (utilities : Val) : Except String PyRat := do
  let gas ← utilContribution utilities "naturalGas" emissionFactorNaturalGas
  let lpg ← utilContribution utilities "lpg" emissionFactorLpg
  pure (gas.add lpg)

/-- `_calculate_scope2_emissions` (electricity + district cooling). -/
def calcScope2Emissions (utilities : Val) : Except String PyRat := do
  let elec ← utilContribution utilities "electricity" emissionFactorElectricity
  let cool ← utilContribution utilities "districtCooling" emissionFactorDistrictCooling
  pure (elec.add cool)

/-- The location loop of `calculate_carbon_footprint`, returning the
accumulated (total floor area, scope1, scope2). -/
def footprintLoop : List Val → Except String (PyRat × PyRat × PyRat)
  | [] => pure (PyRat.ofInt 0, PyRat.ofInt 0, PyRat.ofInt 0)
  | loc :: rest => do
      let utilities ← loc.getD? "utilities" (Val.dict [])
      let floorV ← loc.getD? "totalFloorArea" (Val.int 0)
      let floor ← floorV.toNum?
      let s1 ← calcScope1Emissions utilities
      let s2 ← calcScope2Emissions utilities
      let (fRest, s1Rest, s2Rest) ← footprintLoop rest
      pure (floor.add fRest, s1.add s1Rest, s2.add s2Rest)

/-- `total_annual / employees if employees > 0 else 0` (the comparison
raises `TypeError` for a non-numeric employees value). -/
def perEmployeeEmissions (totalAnnual : PyRat) (employees : Val) :
    Except String PyRat := do
  let empPos ← pyGtNum? employees (PyRat.ofInt 0)
  if empPos then do
    let q ← employees.toNum?
    pure (totalAnnual.div q)
  else pure (PyRat.ofInt 0)

/-- `calculate_carbon_footprint`. -/
def calcCarbonFootprint (locationData : List Val) (companyData : PyDict) :
    Except String CarbonFootprint := do
  let (totalFloorArea, totalScope1, totalScope2) ← footprintLoop locationData
  let totalAnnual := totalScope1.add totalScope2
  let employees := (dlookup companyData "employees").getD (Val.int 1)
  let emissionsPerSqm :=
    if (PyRat.ofInt 0).lt totalFloorArea then totalAnnual.div totalFloorArea
    else PyRat.ofInt 0
  let emissionsPerEmployee ← perEmployeeEmissions totalAnnual employees
  pure { total_annual := totalAnnual, scope1 := totalScope1, scope2 := totalScope2,
         emissions_per_sqm := emissionsPerSqm,
         emissions_per_employee := emissionsPerEmployee }

/-- `framework in task.get("frameworks", [])` for one task. -/
def taskReferencesFramework (framework : String) (task : Val) : Except String Bool := do
  let fv ← task.getD? "frameworks" (Val.list [])
  match fv with
  | Val.list l => pure (pyMemList (Val.str framework) l)
  | Val.str s => pure (charsInfix framework.data s.data)
  | Val.dict d => pure (dlookup d framework).isSome
  | _ => Except.error "TypeError"

/-- `[task for task in tasks if framework in task.get("frameworks", [])]`. -/
def filterFrameworkTasks (framework : String) : List Val → Except String (List Val)
  | [] => pure []
  | t :: rest => do
      let r ← taskReferencesFramework framework t
      let more ← filterFrameworkTasks framework rest
      pure (if r then t :: more else more)

/-- `task.get("status") == "completed"` filter. -/
def filterCompletedTasks : List Val → Except String (List Val)
  | [] => pure []
  | t :: rest => do
      let status ← t.getD? "status" Val.none
      let more ← filterCompletedTasks rest
      pure (if pyEq status (Val.str "completed") then t :: more else more)

/-- Body of the per-framework loop of `calculate_compliance_rates`. -/
def complianceRateFor (tasks : List Val) (framework : String) :
    Except String ComplianceRate := do
  let frameworkTasks ← filterFrameworkTasks framework tasks
  if frameworkTasks.isEmpty then
    pure { framework := framework, rate := PyRat.ofInt 0, completed := 0, total := 0 }
  else do
    let completedTasks ← filterCompletedTasks frameworkTasks
    let rate := ((PyRat.ofNat completedTasks.length).div
        (PyRat.ofNat frameworkTasks.length)).mul (PyRat.ofInt 100)
    pure { framework := framework, rate := rate,
           completed := completedTasks.length, total := frameworkTasks.length }

/-- `calculate_compliance_rates`. -/
def calcComplianceRates (tasks : List Val) : List String → Except String (List ComplianceRate)
  | [] => pure []
  | fw :: rest => do
      let here ← complianceRateFor tasks fw
      let more ← calcComplianceRates tasks rest
      pure (here :: more)

/-- One intensity band of `SECTOR_BENCHMARKS`. -/
structure BenchmarkBand where
  efficient : PyRat
  average : PyRat
  inefficient : PyRat
deriving DecidableEq, Repr

/-- The three bands of one sector in `SECTOR_BENCHMARKS`. -/
structure SectorBenchmark where
  electricity_intensity : BenchmarkBand
  water_intensity : BenchmarkBand
  carbon_intensity : BenchmarkBand
deriving DecidableEq, Repr

/-- `SECTOR_BENCHMARKS.get(sector)`: only six of the eight valid sectors
have benchmark entries (`retail` and `professional_services` have none). -/
def sectorBenchmarks (sector : String) : Option SectorBenchmark :=
  if sector = "hospitality" then
    some ⟨⟨⟨100, 1⟩, ⟨150, 1⟩, ⟨200, 1⟩⟩, ⟨⟨300, 1⟩, ⟨500, 1⟩, ⟨700, 1⟩⟩,
          ⟨⟨50, 1⟩, ⟨75, 1⟩, ⟨100, 1⟩⟩⟩
  else if sector = "manufacturing" then
    some ⟨⟨⟨200, 1⟩, ⟨300, 1⟩, ⟨400, 1⟩⟩, ⟨⟨100, 1⟩, ⟨200, 1⟩, ⟨300, 1⟩⟩,
          ⟨⟨100, 1⟩, ⟨150, 1⟩, ⟨200, 1⟩⟩⟩
  else if sector = "construction" then
    some ⟨⟨⟨80, 1⟩, ⟨120, 1⟩, ⟨160, 1⟩⟩, ⟨⟨150, 1⟩, ⟨250, 1⟩, ⟨350, 1⟩⟩,
          ⟨⟨40, 1⟩, ⟨60, 1⟩, ⟨80, 1⟩⟩⟩
  else if sector = "education" then
    some ⟨⟨⟨60, 1⟩, ⟨90, 1⟩, ⟨120, 1⟩⟩, ⟨⟨200, 1⟩, ⟨300, 1⟩, ⟨400, 1⟩⟩,
          ⟨⟨30, 1⟩, ⟨45, 1⟩, ⟨60, 1⟩⟩⟩
  else if sector = "healthcare" then
    some ⟨⟨⟨250, 1⟩, ⟨350, 1⟩, ⟨450, 1⟩⟩, ⟨⟨400, 1⟩, ⟨600, 1⟩, ⟨800, 1⟩⟩,
          ⟨⟨120, 1⟩, ⟨170, 1⟩, ⟨220, 1⟩⟩⟩
  else if sector = "logistics" then
    some ⟨⟨⟨40, 1⟩, ⟨60, 1⟩, ⟨80, 1⟩⟩, ⟨⟨50, 1⟩, ⟨100, 1⟩, ⟨150, 1⟩⟩,
          ⟨⟨200, 1⟩, ⟨300, 1⟩, ⟨400, 1⟩⟩⟩
  else Option.none

/-- `loc.get("utilities", {}).get(u, {}).get("monthlyConsumption", 0) * 12`
summed over locations (non-numeric consumption raises at the sum). -/
def sumUtilityAnnual (u : String) : List Val → Except String PyRat
  | [] => pure (PyRat.ofInt 0)
  | loc :: rest => do
      let utilities ← loc.getD? "utilities" (Val.dict [])
      let uv ← utilities.getD? u (Val.dict [])
      let monthly ← uv.getD? "monthlyConsumption" (Val.int 0)
      let q ← monthly.toNum?
      let more ← sumUtilityAnnual u rest
      pure ((q.mul (PyRat.ofInt 12)).add more)

/-- `_categorize_performance`. -/
def categorizePerformance (actualValue : PyRat) (bands : BenchmarkBand) : String :=
  if actualValue.le bands.efficient then "efficient"
  else if actualValue.le bands.average then "average"
  else "inefficient"

/-- Performance-category numeric score used for the overall ranking. -/
def performanceScore (p : String) : Nat :=
  if p = "efficient" then 3
  else if p = "average" then 2
  else if p = "inefficient" then 1
  else 0

/-- `compare_to_benchmarks`. -/
def compareToBenchmarks (locationData : List Val) (carbonFootprint : CarbonFootprint)
    (sector : String) : Except String BenchmarkComparison := do
  match sectorBenchmarks sector with
  | Option.none =>
      pure { electricity_performance := "unknown", water_performance := "unknown",
             carbon_performance := "unknown", overall_ranking := "unknown" }
  | some benchmarks => do
      let totalElectricity ← sumUtilityAnnual "electricity" locationData
      let totalWater ← sumUtilityAnnual "water" locationData
      let totalFloorArea ← sumFloorAreas locationData
      if totalFloorArea.eqb (PyRat.ofInt 0) then
        pure { electricity_performance := "unknown", water_performance := "unknown",
               carbon_performance := "unknown", overall_ranking := "unknown" }
      else do
        let electricityIntensity := totalElectricity.div totalFloorArea
        let waterIntensity := (totalWater.mul (PyRat.ofInt 1000)).div totalFloorArea
        let carbonIntensity := carbonFootprint.emissions_per_sqm.mul (PyRat.ofInt 1000)
        let electricityPerf := categorizePerformance electricityIntensity benchmarks.electricity_intensity
        let waterPerf := categorizePerformance waterIntensity benchmarks.water_intensity
        let carbonPerf := categorizePerformance carbonIntensity benchmarks.carbon_intensity
        let avgScore := (PyRat.ofNat (performanceScore electricityPerf +
            performanceScore waterPerf + performanceScore carbonPerf)).div (PyRat.ofInt 3)
        let overallRanking :=
          if (⟨25, 10⟩ : PyRat).le avgScore then "efficient"
          else if (⟨15, 10⟩ : PyRat).le avgScore then "average"
          else "inefficient"
        pure { electricity_performance := electricityPerf,
               water_performance := waterPerf,
               carbon_performance := carbonPerf,
               overall_ranking := overallRanking }

/-! ## Constructions used to state the claims -/

/-- Scenario A company: `{sector: "hospitality", employees: 50, establishedYear: 2015}`
(no name). -/
def scenarioACompany : PyDict :=
  [("sector", Val.str "hospitality"), ("employees", Val.int 50),
   ("establishedYear", Val.int 2015)]

/-- Scenario A location (no name):
`{totalFloorArea: 1000, utilities: {electricity: {monthlyConsumption: 15000}, water: {monthlyConsumption: 50}}}`. -/
def scenarioALocations : List Val :=
  [Val.dict [("totalFloorArea", Val.int 1000),
     ("utilities", Val.dict
       [("electricity", Val.dict [("monthlyConsumption", Val.int 15000)]),
        ("water", Val.dict [("monthlyConsumption", Val.int 50)])])]]

/-- Scenario B: a single location whose only utility is electricity with
monthly consumption 15000 kWh. -/
def scenarioBLocations : List Val :=
  [Val.dict [("utilities", Val.dict
     [("electricity", Val.dict [("monthlyConsumption", Val.int 15000)])])]]

/-- A location whose `electricity` utility entry is the number 5 instead of
a dict: `utilities["electricity"].get("monthlyConsumption", 0)` raises
`AttributeError` inside `_validate_utilities_data`. -/
def badUtilityLocations : List Val :=
  [Val.dict [("utilities", Val.dict [("electricity", Val.int 5)])]]

/-- Replace (first occurrence) or append a key in a dict. -/
def dictSet (d : PyDict) (k : String) (v : Val) : PyDict :=
  match d with
  | [] => [(k, v)]
  | (k', w) :: rest => if k' = k then (k, v) :: rest else (k', w) :: dictSet rest k v

/-- Set `loc["utilities"][u]["monthlyConsumption"] = q` when that path
exists, and leave the location unchanged otherwise: this is "vary one
per-location monthly utility consumption with all other inputs fixed". -/
def setConsumption (loc : Val) (u : String) (q : PyRat) : Val :=
  match loc with
  | Val.dict d =>
    match dlookup d "utilities" with
    | some (Val.dict ud) =>
      match dlookup ud u with
      | some (Val.dict uvd) =>
          Val.dict (dictSet d "utilities"
            (Val.dict (dictSet ud u
              (Val.dict (dictSet uvd "monthlyConsumption" (Val.float q))))))
      | _ => loc
    | _ => loc
  | _ => loc

/-- Update the `i`-th element of a list. -/
def modifyAt (L : List Val) (i : Nat) (f : Val → Val) : List Val :=
  match L, i with
  | [], _ => []
  | x :: xs, 0 => f x :: xs
  | x :: xs, Nat.succ j => x :: modifyAt xs j f

/-- The four utility kinds that enter the carbon footprint. -/
def footprintUtilityKinds : List String :=
  ["electricity", "districtCooling", "naturalGas", "lpg"]

/-- A utilities dict after `setConsumption` rewrote utility `u`'s
`monthlyConsumption` to `q`. -/
def updUtil (ud uvd : PyDict) (u : String) (q : PyRat) : Val :=
  Val.dict (dictSet ud u (Val.dict (dictSet uvd "monthlyConsumption" (Val.float q))))

/-- A location dict after `setConsumption` rewrote utility `u`'s
`monthlyConsumption` to `q` (the case where the path exists). -/
def updLoc (d ud uvd : PyDict) (u : String) (q : PyRat) : Val :=
  Val.dict (dictSet d "utilities" (updUtil ud uvd u q))

/-- A one-location input exercising footprint monotonicity in the
electricity consumption. -/
def c4Locations : List Val :=
  [Val.dict [("totalFloorArea", Val.int 100),
             ("utilities", Val.dict [("electricity",
                Val.dict [("monthlyConsumption", Val.int 0)])])]]

/-- A task (of the documented dict shape) references a framework: its
`frameworks` list contains the framework string. -/
def referencesSpec (framework : String) (t : Val) : Bool :=
  match t with
  | Val.dict d =>
    match dlookup d "frameworks" with
    | some (Val.list l) => pyMemList (Val.str framework) l
    | _ => false
  | _ => false

/-- A task counts as completed: its `status` equals `"completed"`. -/
def completedSpec (t : Val) : Bool :=
  match t with
  | Val.dict d => pyEq ((dlookup d "status").getD Val.none) (Val.str "completed")
  | _ => false

/-- Modelled from the spec ("Per framework: select referencing tasks;
rate=100·completed/total, or {0,0,0} if none reference it"): the intended
compliance rate of one framework, for tasks of the documented shape. -/
def complianceRateSpec (tasks : List Val) (framework : String) : ComplianceRate :=
  let referencing := tasks.filter (referencesSpec framework)
  if referencing.isEmpty then
    { framework := framework, rate := PyRat.ofInt 0, completed := 0, total := 0 }
  else
    let completed := referencing.filter completedSpec
    { framework := framework,
      rate := ((PyRat.ofNat completed.length).div
        (PyRat.ofNat referencing.length)).mul (PyRat.ofInt 100),
      completed := completed.length, total := referencing.length }

/-- One task of the documented shape: a dict whose `frameworks` entry, when
present, is a list. -/
def taskShapeC6 : Val → Bool
  | Val.dict d =>
    match dlookup d "frameworks" with
    | some (Val.list _) => true
    | some _ => false
    | Option.none => true
  | _ => false

/-- Tasks of the documented shape. -/
def tasksShapeOk (tasks : List Val) : Bool := tasks.all taskShapeC6

/-- Scenario C tasks: four tasks referencing framework "DST", three of them
completed. -/
def dstTasks : List Val :=
  [Val.dict [("frameworks", Val.list [Val.str "DST"]), ("status", Val.str "completed")],
   Val.dict [("frameworks", Val.list [Val.str "DST"]), ("status", Val.str "completed")],
   Val.dict [("frameworks", Val.list [Val.str "DST"]), ("status", Val.str "completed")],
   Val.dict [("frameworks", Val.list [Val.str "DST"]), ("status", Val.str "to_do")]]

/-- A value allowed as a Python set element (hashable). -/
def Val.hashable : Val → Bool
  | .list _ => false
  | .dict _ => false
  | _ => true

/-- A value that `set.update(...)` accepts without raising. -/
def frameworksIterableOk : Val → Bool
  | .str _ => true
  | .list l => l.all Val.hashable
  | .dict _ => true
  | _ => false

/-- The optional value is a number when present. -/
def numOrAbsent : Option Val → Bool
  | Option.none => true
  | some v => v.isNum

/-- Well-shaped location: a dict whose `totalFloorArea` is numeric when
present and whose `utilities`, when present, is a dict with dict-valued
required-utility entries and dict-valued optional-utility entries carrying a
numeric (or absent) `monthlyConsumption`. -/
def locationShapeOk : Val → Bool
  | Val.dict d =>
      numOrAbsent (dlookup d "totalFloorArea") &&
      (match dlookup d "utilities" with
       | some (Val.dict ud) =>
           requiredUtilityFields.all (fun u =>
             match dlookup ud u with
             | some (Val.dict _) => true
             | some _ => false
             | Option.none => true) &&
           optionalUtilityFields.all (fun u =>
             match dlookup ud u with
             | some (Val.dict uvd) => numOrAbsent (dlookup uvd "monthlyConsumption")
             | some _ => false
             | Option.none => true)
       | some _ => false
       | Option.none => true)
  | _ => false

/-- Well-shaped task: a dict whose `frameworks`, when present, iterates
into a set without raising. -/
def taskShapeOk : Val → Bool
  | Val.dict d =>
      (match dlookup d "frameworks" with
       | some fv => frameworksIterableOk fv
       | Option.none => true)
  | _ => false

/-- Well-shaped answer value: non-dict answers are skipped safely
everywhere; dict answers need an iterable `frameworks` when present. -/
def answerShapeOk : Val → Bool
  | Val.dict d =>
      (match dlookup d "frameworks" with
       | some fv => frameworksIterableOk fv
       | Option.none => true)
  | _ => true

/-- Well-shaped input collections: under this predicate the validator
provably raises no exception. -/
def wellShapedInputs (company : PyDict) (locations : List Val)
    (answers : PyDict) (tasks : List Val) : Bool :=
  numOrAbsent (dlookup company "employees") &&
  locations.all locationShapeOk &&
  answers.all (fun p => answerShapeOk p.2) &&
  tasks.all taskShapeOk

/-! ## Theorems: bridge lemmas for `PyRat` -/

namespace PyRat

theorem wf_ofInt (i : Int) : (ofInt i).wf := Nat.one_pos

theorem wf_ofNat (m : Nat) : (ofNat m).wf := Nat.one_pos

theorem wf_add {a b : PyRat} (ha : a.wf) (hb : b.wf) : (a.add b).wf :=
  Nat.mul_pos ha hb

theorem wf_sub {a b : PyRat} (ha : a.wf) (hb : b.wf) : (a.sub b).wf :=
  Nat.mul_pos ha hb

theorem wf_mul {a b : PyRat} (ha : a.wf) (hb : b.wf) : (a.mul b).wf :=
  Nat.mul_pos ha hb

theorem wf_div {a b : PyRat} (ha : a.wf) : (a.div b).wf := by
  unfold div wf
  split
  · exact Nat.one_pos
  · split <;>
    · simp only
      rename_i h0 _
      exact Nat.mul_pos ha (Int.natAbs_pos.mpr h0)

theorem wf_pyMin {a b : PyRat} (ha : a.wf) (hb : b.wf) : (a.pyMin b).wf := by
  unfold pyMin; split <;> assumption

theorem wf_pyMax {a b : PyRat} (ha : a.wf) (hb : b.wf) : (a.pyMax b).wf := by
  unfold pyMax; split <;> assumption

theorem toRat_ofInt (i : Int) : (ofInt i).toRat = (i : ℚ) := by
  simp [ofInt, toRat]

theorem toRat_ofNat (m : Nat) : (ofNat m).toRat = (m : ℚ) := by
  simp [ofNat, toRat]

theorem den_ne_zero_q {a : PyRat} (ha : a.wf) : ((a.d : ℚ)) ≠ 0 :=
  Nat.cast_ne_zero.mpr (Nat.pos_iff_ne_zero.mp ha)

theorem toRat_add {a b : PyRat} (ha : a.wf) (hb : b.wf) :
    (a.add b).toRat = a.toRat + b.toRat := by
  have hda : ((a.d : ℚ)) ≠ 0 := den_ne_zero_q ha
  have hdb : ((b.d : ℚ)) ≠ 0 := den_ne_zero_q hb
  unfold add toRat
  push_cast
  field_simp

theorem toRat_sub {a b : PyRat} (ha : a.wf) (hb : b.wf) :
    (a.sub b).toRat = a.toRat - b.toRat := by
  have hda : ((a.d : ℚ)) ≠ 0 := den_ne_zero_q ha
  have hdb : ((b.d : ℚ)) ≠ 0 := den_ne_zero_q hb
  unfold sub toRat
  push_cast
  field_simp
  ring

theorem toRat_mul {a b : PyRat} (ha : a.wf) (hb : b.wf) :
    (a.mul b).toRat = a.toRat * b.toRat := by
  have hda : ((a.d : ℚ)) ≠ 0 := den_ne_zero_q ha
  have hdb : ((b.d : ℚ)) ≠ 0 := den_ne_zero_q hb
  unfold mul toRat
  push_cast
  field_simp

theorem toRat_div {a b : PyRat} (ha : a.wf) (hb : b.wf) :
    (a.div b).toRat = a.toRat / b.toRat := by
  have hda : ((a.d : ℚ)) ≠ 0 := den_ne_zero_q ha
  have hdb : ((b.d : ℚ)) ≠ 0 := den_ne_zero_q hb
  unfold div toRat
  split
  · rename_i h0
    simp [h0]
  · rename_i h0
    have hbn : ((b.n : ℚ)) ≠ 0 := by exact_mod_cast h0
    split
    · rename_i hneg
      have hbq : (b.n : ℚ) < 0 := by exact_mod_cast hneg
      have habs : ((b.n.natAbs : ℚ)) = -(b.n : ℚ) := by
        rw [Nat.cast_natAbs]
        push_cast
        exact abs_of_nonpos (le_of_lt hbq)
      simp only
      push_cast
      rw [habs]
      field_simp
    · rename_i hpos
      have hbq : (0 : ℚ) ≤ (b.n : ℚ) := by exact_mod_cast not_lt.mp hpos
      have habs : ((b.n.natAbs : ℚ)) = (b.n : ℚ) := by
        rw [Nat.cast_natAbs]
        push_cast
        exact abs_of_nonneg hbq
      simp only
      push_cast
      rw [habs]
      field_simp

theorem le_iff {a b : PyRat} (ha : a.wf) (hb : b.wf) :
    a.le b = true ↔ a.toRat ≤ b.toRat := by
  have hda : (0 : ℚ) < (a.d : ℚ) := by exact_mod_cast ha
  have hdb : (0 : ℚ) < (b.d : ℚ) := by exact_mod_cast hb
  unfold le toRat
  rw [decide_eq_true_iff, div_le_div_iff hda hdb]
  constructor
  · intro h; exact_mod_cast h
  · intro h; exact_mod_cast h

theorem lt_iff {a b : PyRat} (ha : a.wf) (hb : b.wf) :
    a.lt b = true ↔ a.toRat < b.toRat := by
  have hda : (0 : ℚ) < (a.d : ℚ) := by exact_mod_cast ha
  have hdb : (0 : ℚ) < (b.d : ℚ) := by exact_mod_cast hb
  unfold lt toRat
  rw [decide_eq_true_iff, div_lt_div_iff hda hdb]
  constructor
  · intro h; exact_mod_cast h
  · intro h; exact_mod_cast h

theorem eqb_iff {a b : PyRat} (ha : a.wf) (hb : b.wf) :
    a.eqb b = true ↔ a.toRat = b.toRat := by
  have hda : ((a.d : ℚ)) ≠ 0 := den_ne_zero_q ha
  have hdb : ((b.d : ℚ)) ≠ 0 := den_ne_zero_q hb
  unfold eqb toRat
  rw [beq_iff_eq, div_eq_div_iff hda hdb]
  constructor
  · intro h; exact_mod_cast h
  · intro h; exact_mod_cast h

theorem toRat_pyMin {a b : PyRat} (ha : a.wf) (hb : b.wf) :
    (a.pyMin b).toRat = min a.toRat b.toRat := by
  unfold pyMin
  split
  · rename_i h
    have := (lt_iff hb ha).mp h
    rw [min_eq_right (le_of_lt this)]
  · rename_i h
    have : ¬ b.toRat < a.toRat := fun hc => h ((lt_iff hb ha).mpr hc)
    rw [min_eq_left (not_lt.mp this)]

theorem toRat_pyMax {a b : PyRat} (ha : a.wf) (hb : b.wf) :
    (a.pyMax b).toRat = max a.toRat b.toRat := by
  unfold pyMax
  split
  · rename_i h
    have := (lt_iff ha hb).mp h
    rw [max_eq_right (le_of_lt this)]
  · rename_i h
    have : ¬ a.toRat < b.toRat := fun hc => h ((lt_iff ha hb).mpr hc)
    rw [max_eq_left (not_lt.mp this)]

end PyRat

/-! ## Theorems: generic lemmas about the exception monad -/

theorem exceptBind_ok {ε α β : Type} {m : Except ε α} {k : α → Except ε β} {b : β} :
    (m >>= k) = Except.ok b ↔ ∃ a, m = Except.ok a ∧ k a = Except.ok b := by
  cases m with
  | ok a => simp [Bind.bind, Except.bind]
  | error e => simp [Bind.bind, Except.bind]

theorem exceptPure_ok {ε α : Type} {a b : α} :
    (pure a : Except ε α) = Except.ok b ↔ a = b := by
  simp [pure, Except.pure]

theorem countSeverity_nil (s : Severity) : countSeverity [] s = 0 := rfl

theorem countSeverity_cons (i : ValidationIssue) (is : List ValidationIssue) (s : Severity) :
    countSeverity (i :: is) s =
      (if i.severity = s then 1 else 0) + countSeverity is s := by
  unfold countSeverity
  rw [List.filter_cons]
  by_cases h : i.severity = s
  · simp [h, Nat.add_comm]
  · simp [h]

theorem countSeverity_append (xs ys : List ValidationIssue) (s : Severity) :
    countSeverity (xs ++ ys) s = countSeverity xs s + countSeverity ys s := by
  unfold countSeverity
  rw [List.filter_append, List.length_append]

/-! ## Well-formedness of the scores computed by the validator -/

theorem issuePenalty_wf (s : Severity) : (issuePenalty s).wf := by
  cases s <;> exact PyRat.wf_ofInt _

theorem locCompletenessSum_wf : ∀ {L : List Val} {s : PyRat},
    locCompletenessSum L = Except.ok s → s.wf := by
  intro L
  induction L with
  | nil =>
      intro s h
      simp only [locCompletenessSum, exceptPure_ok] at h
      subst h
      exact PyRat.wf_ofInt 0
  | cons loc rest ih =>
      intro s h
      simp only [locCompletenessSum, exceptBind_ok] at h
      obtain ⟨sc, _, h⟩ := h
      obtain ⟨restSum, hrest, h⟩ := h
      rw [exceptPure_ok] at h
      subst h
      exact PyRat.wf_add (PyRat.wf_div (PyRat.wf_ofNat _)) (ih hrest)

theorem locationsEarned_wf {locations : List Val} {q : PyRat}
    (h : locationsEarned locations = Except.ok q) : q.wf := by
  unfold locationsEarned at h
  split at h
  · rw [exceptPure_ok] at h; subst h; exact PyRat.wf_ofInt 0
  · simp only [exceptBind_ok] at h
    obtain ⟨s, hs, h⟩ := h
    rw [exceptPure_ok] at h
    subst h
    exact PyRat.wf_mul (PyRat.wf_div (locCompletenessSum_wf hs)) (PyRat.wf_ofInt 25)

theorem tasksEarned_wf {tasks : List Val} {q : PyRat}
    (h : tasksEarned tasks = Except.ok q) : q.wf := by
  unfold tasksEarned at h
  split at h
  · rw [exceptPure_ok] at h; subst h; exact PyRat.wf_ofInt 0
  · simp only [exceptBind_ok] at h
    obtain ⟨c, _, h⟩ := h
    rw [exceptPure_ok] at h
    subst h
    exact PyRat.wf_mul (PyRat.wf_div (PyRat.wf_ofNat _)) (PyRat.wf_ofInt 20)

theorem companyEarned_wf (company : PyDict) : (companyEarned company).wf :=
  PyRat.wf_mul (PyRat.wf_div (PyRat.wf_ofNat _)) (PyRat.wf_ofInt 25)

theorem answersEarned_wf (answers : PyDict) : (answersEarned answers).wf := by
  unfold answersEarned
  split
  · exact PyRat.wf_ofInt 0
  · exact PyRat.wf_mul (PyRat.wf_div (PyRat.wf_ofNat _)) (PyRat.wf_ofInt 30)

theorem calcCompletenessScore_wf {company : PyDict} {locations : List Val}
    {answers : PyDict} {tasks : List Val} {q : PyRat}
    (h : calcCompletenessScore company locations answers tasks = Except.ok q) :
    q.wf := by
  unfold calcCompletenessScore at h
  simp only [exceptBind_ok] at h
  obtain ⟨e2, he2, h⟩ := h
  obtain ⟨e4, he4, h⟩ := h
  split at h <;> rw [exceptPure_ok] at h <;> subst h
  · refine PyRat.wf_mul (PyRat.wf_div ?_) (PyRat.wf_ofInt 100)
    exact PyRat.wf_add (PyRat.wf_add (PyRat.wf_add (companyEarned_wf company)
      (locationsEarned_wf he2)) (answersEarned_wf answers)) (tasksEarned_wf he4)
  · exact PyRat.wf_ofInt 0

/-- Destructuring of a successful `validate_report_data` run: the stored
scores and validity flag are computed from the collected issues and the
completeness score exactly as in the source. -/
theorem validateReportData_ok_shape {company : PyDict} {locations : List Val}
    {answers : PyDict} {tasks : List Val} {r : ValidationResult}
    (h : validateReportData company locations answers tasks = Except.ok r) :
    ∃ comp, calcCompletenessScore company locations answers tasks = Except.ok comp ∧
      r.completeness_score = comp ∧
      r.quality_score = calcQualityScore r.issues comp ∧
      r.is_valid = (countSeverity r.issues Severity.error == 0 &&
        (PyRat.ofInt 60).le comp) := by
  unfold validateReportData at h
  simp only [exceptBind_ok] at h
  obtain ⟨i2, hi2, h⟩ := h
  obtain ⟨i4, hi4, h⟩ := h
  obtain ⟨i5, hi5, h⟩ := h
  obtain ⟨comp, hcomp, h⟩ := h
  rw [exceptPure_ok] at h
  subst h
  exact ⟨comp, hcomp, rfl, rfl, rfl⟩

/-- C1: for every input on which `validate_report_data` returns a result,
`is_valid` holds iff the collected issues contain no ERROR-severity issue
and the completeness score is at least 60. -/
theorem validateReportData_isValid_iff (company : PyDict) (locations : List Val)
    (answers : PyDict) (tasks : List Val) (r : ValidationResult)
    (h : validateReportData company locations answers tasks = Except.ok r) :
    (r.is_valid = true ↔
      countSeverity r.issues Severity.error = 0 ∧
        (60 : ℚ) ≤ r.completeness_score.toRat) := by
  obtain ⟨comp, hcomp, hc, _, hv⟩ := validateReportData_ok_shape h
  have hwf := calcCompletenessScore_wf hcomp
  rw [hv, hc, Bool.and_eq_true, beq_iff_eq]
  have h60 : ((PyRat.ofInt 60).le comp = true) ↔ ((60 : ℚ) ≤ comp.toRat) := by
    rw [PyRat.le_iff (PyRat.wf_ofInt 60) hwf, PyRat.toRat_ofInt]
    norm_num
  rw [h60]

/-- C1 witness: the theorem applied to the concrete Scenario A input. -/
theorem validateReportData_isValid_iff_witness :
    ∃ r, validateReportData scenarioACompany scenarioALocations [] [] = Except.ok r ∧
      (r.is_valid = true ↔
        countSeverity r.issues Severity.error = 0 ∧
          (60 : ℚ) ≤ r.completeness_score.toRat) := by
  have hok : (validateReportData scenarioACompany scenarioALocations [] []).map
      (fun _ => ()) = Except.ok () := by decide
  cases h : validateReportData scenarioACompany scenarioALocations [] [] with
  | error e => rw [h] at hok; simp [Except.map] at hok
  | ok r => exact ⟨r, rfl, validateReportData_isValid_iff _ _ _ _ r h⟩

/-! ## The quality-score formula -/

theorem qualityFold_wf : ∀ (issues : List ValidationIssue) (c : PyRat), c.wf →
    (issues.foldl (fun acc i => acc.sub (issuePenalty i.severity)) c).wf := by
  intro issues
  induction issues with
  | nil => intro c hc; exact hc
  | cons i is ih =>
      intro c hc
      rw [List.foldl_cons]
      exact ih _ (PyRat.wf_sub hc (issuePenalty_wf _))

theorem qualityFold_toRat : ∀ (issues : List ValidationIssue) (c : PyRat), c.wf →
    (issues.foldl (fun acc i => acc.sub (issuePenalty i.severity)) c).toRat =
      c.toRat - 10 * countSeverity issues Severity.error
        - 3 * countSeverity issues Severity.warning
        - 1 * countSeverity issues Severity.info := by
  intro issues
  induction issues with
  | nil => intro c hc; simp [countSeverity_nil]
  | cons i is ih =>
      intro c hc
      rw [List.foldl_cons]
      have hsub : (c.sub (issuePenalty i.severity)).wf :=
        PyRat.wf_sub hc (issuePenalty_wf _)
      rw [ih _ hsub, PyRat.toRat_sub hc (issuePenalty_wf _)]
      rw [countSeverity_cons, countSeverity_cons, countSeverity_cons]
      cases i.severity <;>
        simp [issuePenalty, PyRat.toRat_ofInt] <;> push_cast <;> ring

theorem calcQualityScore_toRat (issues : List ValidationIssue) {c : PyRat}
    (hc : c.wf) :
    (calcQualityScore issues c).toRat =
      max 0 (min 100 (c.toRat - 10 * countSeverity issues Severity.error
        - 3 * countSeverity issues Severity.warning
        - 1 * countSeverity issues Severity.info)) := by
  unfold calcQualityScore
  have hq := qualityFold_wf issues c hc
  rw [PyRat.toRat_pyMax (PyRat.wf_ofInt 0) (PyRat.wf_pyMin (PyRat.wf_ofInt 100) hq)]
  rw [PyRat.toRat_pyMin (PyRat.wf_ofInt 100) hq]
  rw [qualityFold_toRat issues c hc]
  rw [PyRat.toRat_ofInt, PyRat.toRat_ofInt]
  norm_num

/-- C2: on every successful run, the quality score equals the completeness
score minus 10 per ERROR, 3 per WARNING and 1 per INFO issue, clamped to
[0, 100]. -/
theorem validateReportData_quality_formula (company : PyDict) (locations : List Val)
    (answers : PyDict) (tasks : List Val) (r : ValidationResult)
    (h : validateReportData company locations answers tasks = Except.ok r) :
    r.quality_score.toRat =
      max 0 (min 100 (r.completeness_score.toRat
        - 10 * countSeverity r.issues Severity.error
        - 3 * countSeverity r.issues Severity.warning
        - 1 * countSeverity r.issues Severity.info)) := by
  obtain ⟨comp, hcomp, hc, hqual, _⟩ := validateReportData_ok_shape h
  have hwf := calcCompletenessScore_wf hcomp
  rw [hqual, hc, calcQualityScore_toRat _ hwf]

/-- C2 witness: the theorem applied to the concrete Scenario A input. -/
theorem validateReportData_quality_formula_witness :
    ∃ r, validateReportData scenarioACompany scenarioALocations [] [] = Except.ok r ∧
      r.quality_score.toRat =
        max 0 (min 100 (r.completeness_score.toRat
          - 10 * countSeverity r.issues Severity.error
          - 3 * countSeverity r.issues Severity.warning
          - 1 * countSeverity r.issues Severity.info)) := by
  have hok : (validateReportData scenarioACompany scenarioALocations [] []).map
      (fun _ => ()) = Except.ok () := by decide
  cases h : validateReportData scenarioACompany scenarioALocations [] [] with
  | error e => rw [h] at hok; simp [Except.map] at hok
  | ok r => exact ⟨r, rfl, validateReportData_quality_formula _ _ _ _ r h⟩

/-! ## Scenario claims -/

/-- C5: a single location whose only utility is electricity at monthly
consumption 15000 kWh (and no other consumption anywhere) yields scope-2
emissions of exactly 15000 × 12 × 0.469 / 1000 = 84.42 tonnes CO2e. -/
theorem scope2Emissions_scenarioB :
    (calcCarbonFootprint scenarioBLocations []).map (fun fp => fp.scope2.toRat) =
      Except.ok (84.42 : ℚ) := by
  have h : calcCarbonFootprint scenarioBLocations [] =
      Except.ok ⟨⟨84420000, 1000000⟩, ⟨0, 1⟩, ⟨84420000, 1000000⟩, ⟨0, 1⟩,
        ⟨84420000, 1000000⟩⟩ := by decide
  rw [h]
  simp only [Except.map]
  congr 1
  unfold PyRat.toRat
  norm_num

/-- C8: validating Scenario A (hospitality company without a name, one
location without a name, no answers, no tasks) succeeds with
`is_valid = false` and a completeness score inside [25, 50]. -/
theorem scenarioA_result :
    ∃ r, validateReportData scenarioACompany scenarioALocations [] [] = Except.ok r ∧
      r.is_valid = false ∧
      (25 : ℚ) ≤ r.completeness_score.toRat ∧ r.completeness_score.toRat ≤ 50 := by
  have h : (validateReportData scenarioACompany scenarioALocations [] []).map
      (fun x => (x.is_valid, x.completeness_score)) =
      Except.ok (false, ⟨42500, 1200⟩) := by decide
  cases hv : validateReportData scenarioACompany scenarioALocations [] [] with
  | error e => rw [hv] at h; simp [Except.map] at h
  | ok r =>
      rw [hv] at h
      simp only [Except.map, Except.ok.injEq, Prod.mk.injEq] at h
      obtain ⟨hval, hcomp⟩ := h
      refine ⟨r, rfl, hval, ?_, ?_⟩ <;> rw [hcomp] <;> unfold PyRat.toRat <;> norm_num

/-! ## Sector recognition vs. configuration tables -/

theorem pyEq_str_self (s : String) : pyEq (Val.str s) (Val.str s) = true := by
  simp [pyEq, Val.asNum?, Val.structEq]

/-- A recognized, nonempty sector string produces no `company.sector`
issue. -/
theorem validateCompanyData_sector_recognized {company : PyDict} {s : String}
    (hs : dlookup company "sector" = some (Val.str s))
    (hmem : s ∈ validSectors) (hne : s ≠ "") :
    ∀ i ∈ validateCompanyData company, i.field ≠ "company.sector" := by
  intro i hi
  unfold validateCompanyData at hi
  rcases List.mem_append.mp hi with hi3 | hiD
  · rcases List.mem_append.mp hi3 with hi2 | hiC
    · rcases List.mem_append.mp hi2 with hiA | hiB
      · -- required-field loop: the sector entry is present and truthy
        obtain ⟨f, hf, hsome⟩ := List.mem_filterMap.mp hiA
        by_cases hmo : missingOrEmpty company f
        · rw [if_pos hmo] at hsome
          injection hsome with hsome
          subst hsome
          simp only [requiredCompanyFields, List.mem_cons, List.not_mem_nil,
            or_false] at hf
          rcases hf with rfl | rfl | rfl | rfl
          · simp
          · -- f = "sector": contradicts presence and truthiness
            exfalso
            unfold missingOrEmpty at hmo
            rw [hs] at hmo
            simp [Val.truthy, hne] at hmo
          · simp
          · simp
        · rw [if_neg hmo] at hsome
          exact absurd hsome (by simp)
      · unfold companyEmployeesIssues at hiB
        split at hiB
        · exact absurd hiB (by simp)
        · split at hiB
          · rw [List.mem_singleton] at hiB
            subst hiB
            simp
          · split at hiB
            · rw [List.mem_singleton] at hiB
              subst hiB
              simp
            · exact absurd hiB (by simp)
    · unfold companyYearIssues at hiC
      split at hiC
      · exact absurd hiC (by simp)
      · split at hiC
        · rw [List.mem_singleton] at hiC
          subst hiC
          simp
        · exact absurd hiC (by simp)
  · unfold companySectorIssues at hiD
    rw [hs] at hiD
    have hany : validSectors.any (fun x => pyEq (Val.str s) (Val.str x)) = true :=
      List.any_eq_true.mpr ⟨s, hmem, pyEq_str_self s⟩
    simp [hany] at hiD

/-- C10: `retail` and `professional_services` are accepted by the validator
as recognized sectors (no `company.sector` issue), yet `_get_sector_weights`
falls back to the default weighting for them and `compare_to_benchmarks`
classifies them entirely as "unknown", because neither the sector-weight
table nor the sector-benchmark table has entries for these two sectors. -/
theorem retailProfessionalServices_gap :
    (∀ company : PyDict, dlookup company "sector" = some (Val.str "retail") →
      ∀ i ∈ validateCompanyData company, i.field ≠ "company.sector") ∧
    (∀ company : PyDict,
      dlookup company "sector" = some (Val.str "professional_services") →
      ∀ i ∈ validateCompanyData company, i.field ≠ "company.sector") ∧
    getSectorWeights "retail" = ⟨⟨40, 100⟩, ⟨30, 100⟩, ⟨30, 100⟩⟩ ∧
    getSectorWeights "professional_services" = ⟨⟨40, 100⟩, ⟨30, 100⟩, ⟨30, 100⟩⟩ ∧
    (∀ (locs : List Val) (fp : CarbonFootprint),
      compareToBenchmarks locs fp "retail" =
        Except.ok ⟨"unknown", "unknown", "unknown", "unknown"⟩) ∧
    (∀ (locs : List Val) (fp : CarbonFootprint),
      compareToBenchmarks locs fp "professional_services" =
        Except.ok ⟨"unknown", "unknown", "unknown", "unknown"⟩) := by
  refine ⟨?_, ?_, by decide, by decide, ?_, ?_⟩
  · intro company hs
    exact validateCompanyData_sector_recognized hs (by decide) (by decide)
  · intro company hs
    exact validateCompanyData_sector_recognized hs (by decide) (by decide)
  · intro locs fp; rfl
  · intro locs fp; rfl

/-- C10 witness: the theorem applied to a concrete retail company and a
concrete benchmark comparison. -/
theorem retailProfessionalServices_gap_witness :
    (∀ i ∈ validateCompanyData [("sector", Val.str "retail")],
      i.field ≠ "company.sector") ∧
    compareToBenchmarks [] ⟨⟨0, 1⟩, ⟨0, 1⟩, ⟨0, 1⟩, ⟨0, 1⟩, ⟨0, 1⟩⟩ "retail" =
      Except.ok ⟨"unknown", "unknown", "unknown", "unknown"⟩ :=
  ⟨retailProfessionalServices_gap.1 _ rfl,
   retailProfessionalServices_gap.2.2.2.2.1 _ _⟩

/-- C9: a required company field that is present but falsy (for example
`employees = 0` or an empty name) yields the same missing-or-empty ERROR as
an absent one; `employees = 0` additionally yields the positive-number
WARNING. -/
theorem falsyCompanyFields_issues :
    (∀ (company : PyDict) (f : String) (v : Val), f ∈ requiredCompanyFields →
      dlookup company f = some v → v.truthy = false →
      ({ severity := Severity.error, field := "company." ++ f,
         message := "Required field '" ++ f ++ "' is missing or empty",
         suggestion := some ("Please provide " ++ f ++ " information") } : ValidationIssue)
        ∈ validateCompanyData company) ∧
    (∀ company : PyDict, dlookup company "employees" = some (Val.int 0) →
      ({ severity := Severity.error, field := "company.employees",
         message := "Required field 'employees' is missing or empty",
         suggestion := some "Please provide employees information" } : ValidationIssue)
        ∈ validateCompanyData company ∧
      ({ severity := Severity.warning, field := "company.employees",
         message := "Employee count should be a positive number",
         value := some (Val.int 0),
         suggestion := some "Provide accurate employee count for better calculations" } : ValidationIssue)
        ∈ validateCompanyData company) := by
  have h1 : ∀ (company : PyDict) (f : String) (v : Val), f ∈ requiredCompanyFields →
      dlookup company f = some v → v.truthy = false →
      ({ severity := Severity.error, field := "company." ++ f,
         message := "Required field '" ++ f ++ "' is missing or empty",
         suggestion := some ("Please provide " ++ f ++ " information") } : ValidationIssue)
        ∈ validateCompanyData company := by
    intro company f v hf hlook htr
    unfold validateCompanyData
    refine List.mem_append_left _ (List.mem_append_left _ (List.mem_append_left _ ?_))
    refine List.mem_filterMap.mpr ⟨f, hf, ?_⟩
    have hmo : missingOrEmpty company f = true := by
      unfold missingOrEmpty
      rw [hlook]
      simp [htr]
    rw [if_pos hmo]
  refine ⟨h1, fun company hc => ⟨?_, ?_⟩⟩
  · exact h1 company "employees" (Val.int 0) (by decide) hc rfl
  · unfold validateCompanyData
    refine List.mem_append_left _ (List.mem_append_left _ (List.mem_append_right _ ?_))
    unfold companyEmployeesIssues
    rw [hc]
    simp [Val.asNum?, PyRat.ofInt, PyRat.le]

/-- C9 witness: the theorem applied to a concrete company with
`employees = 0`. -/
theorem falsyCompanyFields_issues_witness :
    ({ severity := Severity.error, field := "company.employees",
       message := "Required field 'employees' is missing or empty",
       suggestion := some "Please provide employees information" } : ValidationIssue)
      ∈ validateCompanyData [("employees", Val.int 0)] ∧
    ({ severity := Severity.warning, field := "company.employees",
       message := "Employee count should be a positive number",
       value := some (Val.int 0),
       suggestion := some "Provide accurate employee count for better calculations" } : ValidationIssue)
      ∈ validateCompanyData [("employees", Val.int 0)] :=
  falsyCompanyFields_issues.2 [("employees", Val.int 0)] rfl

/-! ## Sector weights and the overall ESG score -/

theorem getSectorWeights_wf (sector : String) :
    (getSectorWeights sector).environmental.wf ∧
      (getSectorWeights sector).social.wf ∧
      (getSectorWeights sector).governance.wf := by
  unfold getSectorWeights
  split_ifs <;> exact ⟨by decide, by decide, by decide⟩

theorem getSectorWeights_nonneg (sector : String) :
    0 ≤ (getSectorWeights sector).environmental.toRat ∧
      0 ≤ (getSectorWeights sector).social.toRat ∧
      0 ≤ (getSectorWeights sector).governance.toRat := by
  unfold getSectorWeights
  split_ifs <;>
    exact ⟨by norm_num [PyRat.toRat], by norm_num [PyRat.toRat],
      by norm_num [PyRat.toRat]⟩

theorem getSectorWeights_sum (sector : String) :
    (getSectorWeights sector).environmental.toRat +
      (getSectorWeights sector).social.toRat +
      (getSectorWeights sector).governance.toRat = 1 := by
  unfold getSectorWeights
  split_ifs <;> norm_num [PyRat.toRat]

theorem overallCombination_bounds {e s g we ws wg : PyRat}
    (he : e.wf) (hs : s.wf) (hg : g.wf)
    (hwe : we.wf) (hws : ws.wf) (hwg : wg.wf)
    (he0 : 0 ≤ e.toRat) (he1 : e.toRat ≤ 100)
    (hs0 : 0 ≤ s.toRat) (hs1 : s.toRat ≤ 100)
    (hg0 : 0 ≤ g.toRat) (hg1 : g.toRat ≤ 100)
    (hwe0 : 0 ≤ we.toRat) (hws0 : 0 ≤ ws.toRat) (hwg0 : 0 ≤ wg.toRat)
    (hsum : we.toRat + ws.toRat + wg.toRat = 1) :
    0 ≤ (((e.mul we).add (s.mul ws)).add (g.mul wg)).toRat ∧
      (((e.mul we).add (s.mul ws)).add (g.mul wg)).toRat ≤ 100 := by
  rw [PyRat.toRat_add (PyRat.wf_add (PyRat.wf_mul he hwe) (PyRat.wf_mul hs hws))
      (PyRat.wf_mul hg hwg),
    PyRat.toRat_add (PyRat.wf_mul he hwe) (PyRat.wf_mul hs hws),
    PyRat.toRat_mul he hwe, PyRat.toRat_mul hs hws, PyRat.toRat_mul hg hwg]
  constructor
  · have h1 := mul_nonneg he0 hwe0
    have h2 := mul_nonneg hs0 hws0
    have h3 := mul_nonneg hg0 hwg0
    linarith
  · have h1 : e.toRat * we.toRat ≤ 100 * we.toRat :=
      mul_le_mul_of_nonneg_right he1 hwe0
    have h2 : s.toRat * ws.toRat ≤ 100 * ws.toRat :=
      mul_le_mul_of_nonneg_right hs1 hws0
    have h3 : g.toRat * wg.toRat ≤ 100 * wg.toRat :=
      mul_le_mul_of_nonneg_right hg1 hwg0
    linarith

/-- C3: for every sector string (including unrecognized ones mapped to the
default weighting 0.40/0.30/0.30) the configured category weights sum to
exactly 1, and consequently the overall-score combination used by
`calculate_esg_score` maps any category-score triple in [0,100]³ into
[0,100]. -/
theorem sectorWeights_sum_and_overall_bounds :
    (∀ sector : String,
      (getSectorWeights sector).environmental.toRat +
        (getSectorWeights sector).social.toRat +
        (getSectorWeights sector).governance.toRat = 1) ∧
    (∀ (sector : String) (e s g : PyRat), e.wf → s.wf → g.wf →
      0 ≤ e.toRat → e.toRat ≤ 100 → 0 ≤ s.toRat → s.toRat ≤ 100 →
      0 ≤ g.toRat → g.toRat ≤ 100 →
      0 ≤ (overallESGScore sector e s g).toRat ∧
        (overallESGScore sector e s g).toRat ≤ 100) := by
  refine ⟨getSectorWeights_sum, ?_⟩
  intro sector e s g he hs hg he0 he1 hs0 hs1 hg0 hg1
  obtain ⟨hwe, hws, hwg⟩ := getSectorWeights_wf sector
  obtain ⟨hwe0, hws0, hwg0⟩ := getSectorWeights_nonneg sector
  unfold overallESGScore
  exact overallCombination_bounds he hs hg hwe hws hwg he0 he1 hs0 hs1 hg0 hg1
    hwe0 hws0 hwg0 (getSectorWeights_sum sector)

/-- C3 witness: the theorem applied to the (fallback-weighted) retail sector
and the concrete triple (50, 50, 50). -/
theorem sectorWeights_sum_and_overall_bounds_witness :
    0 ≤ (overallESGScore "retail" ⟨50, 1⟩ ⟨50, 1⟩ ⟨50, 1⟩).toRat ∧
      (overallESGScore "retail" ⟨50, 1⟩ ⟨50, 1⟩ ⟨50, 1⟩).toRat ≤ 100 :=
  sectorWeights_sum_and_overall_bounds.2 "retail" ⟨50, 1⟩ ⟨50, 1⟩ ⟨50, 1⟩
    (by decide) (by decide) (by decide)
    (by norm_num [PyRat.toRat]) (by norm_num [PyRat.toRat])
    (by norm_num [PyRat.toRat]) (by norm_num [PyRat.toRat])
    (by norm_num [PyRat.toRat]) (by norm_num [PyRat.toRat])

/-! ## Compliance rates -/

theorem ok_bind {ε α β : Type} (a : α) (k : α → Except ε β) :
    (Except.ok a : Except ε α) >>= k = k a := rfl

theorem taskReferences_spec {t : Val} (ht : taskShapeC6 t = true) (fw : String) :
    taskReferencesFramework fw t = Except.ok (referencesSpec fw t) := by
  cases t
  case dict d =>
    simp only [taskShapeC6] at ht
    unfold taskReferencesFramework
    show ((Except.ok ((dlookup d "frameworks").getD (Val.list []))) >>= _) = _
    rw [ok_bind]
    cases hf : dlookup d "frameworks" with
    | none => simp [referencesSpec, hf, Option.getD, pyMemList, pure, Except.pure]
    | some fv =>
        rw [hf] at ht
        cases fv <;> simp_all [referencesSpec, hf, Option.getD, pure, Except.pure]
  all_goals simp [taskShapeC6] at ht

theorem filterFrameworkTasks_spec : ∀ {tasks : List Val},
    tasksShapeOk tasks = true → ∀ fw : String,
    filterFrameworkTasks fw tasks = Except.ok (tasks.filter (referencesSpec fw)) := by
  intro tasks
  induction tasks with
  | nil => intro _ fw; rfl
  | cons t rest ih =>
      intro h fw
      rw [tasksShapeOk, List.all_cons, Bool.and_eq_true] at h
      obtain ⟨ht, hrest⟩ := h
      unfold filterFrameworkTasks
      rw [taskReferences_spec ht fw, ok_bind, ih hrest fw, ok_bind]
      cases hr : referencesSpec fw t <;>
        simp [List.filter_cons, hr, pure, Except.pure]

theorem filterCompletedTasks_spec : ∀ {L : List Val},
    (∀ t ∈ L, taskShapeC6 t = true) →
    filterCompletedTasks L = Except.ok (L.filter completedSpec) := by
  intro L
  induction L with
  | nil => intro _; rfl
  | cons t rest ih =>
      intro h
      have ht := h t (List.mem_cons_self t rest)
      unfold filterCompletedTasks
      cases t
      case dict d =>
        show (Except.ok ((dlookup d "status").getD Val.none) >>= _) = _
        rw [ok_bind, ih (fun x hx => h x (List.mem_cons_of_mem _ hx)), ok_bind]
        cases hc : pyEq ((dlookup d "status").getD Val.none) (Val.str "completed") <;>
          simp [List.filter_cons, completedSpec, hc, pure, Except.pure]
      all_goals simp [taskShapeC6] at ht

theorem complianceRateFor_spec {tasks : List Val} (h : tasksShapeOk tasks = true)
    (fw : String) :
    complianceRateFor tasks fw = Except.ok (complianceRateSpec tasks fw) := by
  simp only [complianceRateFor, complianceRateSpec]
  rw [filterFrameworkTasks_spec h fw, ok_bind]
  by_cases he : (tasks.filter (referencesSpec fw)).isEmpty
  · rw [if_pos he, if_pos he]
    rfl
  · rw [if_neg he, if_neg he]
    have hsub : ∀ t ∈ tasks.filter (referencesSpec fw), taskShapeC6 t = true := by
      intro t hmem
      exact (List.all_eq_true.mp h) t (List.mem_of_mem_filter hmem)
    rw [filterCompletedTasks_spec hsub, ok_bind]
    rfl

/-- C6: `calculate_compliance_rates` returns exactly one `ComplianceRate`
per input framework, in input order; a framework referenced by no task
yields `{rate: 0, completed: 0, total: 0}`, and otherwise
`rate = 100 * completed / total` over the referencing tasks. -/
theorem calcComplianceRates_spec (tasks : List Val) (frameworks : List String)
    (h : tasksShapeOk tasks = true) :
    calcComplianceRates tasks frameworks =
      Except.ok (frameworks.map (complianceRateSpec tasks)) := by
  induction frameworks with
  | nil => rfl
  | cons fw rest ih =>
      unfold calcComplianceRates
      rw [complianceRateFor_spec h fw, ok_bind, ih, ok_bind]
      rfl

/-- C6 witness: Scenario C — framework "DST" referenced by 4 tasks with 3
completed gives rate 75 (= 300/4); an unreferenced framework gives
`{rate: 0, completed: 0, total: 0}`; output order follows input order. -/
theorem calcComplianceRates_spec_witness :
    calcComplianceRates dstTasks ["DST", "GRI"] =
      Except.ok [⟨"DST", ⟨300, 4⟩, 3, 4⟩, ⟨"GRI", ⟨0, 1⟩, 0, 0⟩] := by
  rw [calcComplianceRates_spec dstTasks ["DST", "GRI"] (by decide)]
  decide

/-! ## Exception-freedom on well-shaped inputs -/

theorem Val_hasKey_dict (d : PyDict) (k : String) :
    (Val.dict d).hasKey? k = Except.ok (dlookup d k).isSome := rfl

theorem Val_getD_dict (d : PyDict) (k : String) (dflt : Val) :
    (Val.dict d).getD? k dflt = Except.ok ((dlookup d k).getD dflt) := rfl

theorem ExceptOk_pure {ε α : Type} (a : α) : ExceptOk (pure a : Except ε α) = true := rfl

theorem ExceptOk_exists {ε α : Type} {m : Except ε α} (h : ExceptOk m = true) :
    ∃ a, m = Except.ok a := by
  cases m with
  | ok a => exact ⟨a, rfl⟩
  | error e => simp [ExceptOk] at h

theorem ExceptOk_bind_of {ε α β : Type} {m : Except ε α} {k : α → Except ε β} {a : α}
    (hm : m = Except.ok a) (hk : ExceptOk (k a) = true) : ExceptOk (m >>= k) = true := by
  subst hm
  exact hk

theorem ExceptOk_bind {ε α β : Type} {m : Except ε α} {k : α → Except ε β}
    (hm : ExceptOk m = true) (hk : ∀ a, m = Except.ok a → ExceptOk (k a) = true) :
    ExceptOk (m >>= k) = true := by
  obtain ⟨a, ha⟩ := ExceptOk_exists hm
  exact ExceptOk_bind_of ha (hk a ha)

theorem locationFieldIssue_ok (d : PyDict) (p f : String) :
    ExceptOk (locationFieldIssue (Val.dict d) p f) = true := by
  unfold locationFieldIssue
  cases hk : dlookup d f with
  | none =>
      simp [Val.hasKey?, hk, Bind.bind, Except.bind, pure, Except.pure, ExceptOk,
        apply_ite ExceptOk]
  | some v =>
      cases ht : v.truthy <;>
        simp [Val.hasKey?, Val.getItem?, hk, ht, Bind.bind, Except.bind, pure,
          Except.pure, ExceptOk, apply_ite ExceptOk]

theorem ExceptOk_ite {ε α : Type} {c : Prop} [Decidable c] {x y : Except ε α}
    (hx : ExceptOk x = true) (hy : ExceptOk y = true) :
    ExceptOk (if c then x else y) = true := by
  split <;> assumption

theorem locationShapeOk_dict {loc : Val} (h : locationShapeOk loc = true) :
    ∃ d, loc = Val.dict d := by
  cases loc
  case dict d => exact ⟨d, rfl⟩
  all_goals simp [locationShapeOk] at h

theorem locationFieldIssues_ok (d : PyDict) (p : String) :
    ∀ fields, ExceptOk (locationFieldIssues (Val.dict d) p fields) = true
  | [] => rfl
  | f :: rest => by
      unfold locationFieldIssues
      refine ExceptOk_bind (locationFieldIssue_ok d p f) (fun a _ => ?_)
      refine ExceptOk_bind (locationFieldIssues_ok d p rest) (fun b _ => ?_)
      exact ExceptOk_pure _

theorem floorAreaIssues_ok (d : PyDict) (p : String) :
    ExceptOk (floorAreaIssues (Val.dict d) p) = true := by
  unfold floorAreaIssues
  cases hk : dlookup d "totalFloorArea" with
  | none =>
      refine ExceptOk_bind_of (by rw [Val_hasKey_dict, hk]) ?_
      exact ExceptOk_pure _
  | some v =>
      refine ExceptOk_bind_of (by rw [Val_hasKey_dict, hk]) ?_
      show ExceptOk ((Val.dict d).getItem? "totalFloorArea" >>= _) = true
      refine ExceptOk_bind_of
        (show (Val.dict d).getItem? "totalFloorArea" = Except.ok v from by
          simp [Val.getItem?, hk]) ?_
      cases v.asNum? with
      | none => exact ExceptOk_pure _
      | some q =>
          exact ExceptOk_ite (ExceptOk_pure _)
            (ExceptOk_ite (ExceptOk_pure _) (ExceptOk_pure _))

theorem requiredUtilityIssue1_ok (ud : PyDict) (p u : String)
    (h : ∀ uv, dlookup ud u = some uv → ∃ x, uv = Val.dict x) :
    ExceptOk (requiredUtilityIssue1 (Val.dict ud) p u) = true := by
  unfold requiredUtilityIssue1
  cases hk : dlookup ud u with
  | none =>
      refine ExceptOk_bind_of (by rw [Val_hasKey_dict, hk]) ?_
      exact ExceptOk_pure _
  | some uv =>
      obtain ⟨x, rfl⟩ := h uv hk
      refine ExceptOk_bind_of (by rw [Val_hasKey_dict, hk]) ?_
      show ExceptOk ((Val.dict ud).getItem? u >>= _) = true
      refine ExceptOk_bind_of
        (show (Val.dict ud).getItem? u = Except.ok (Val.dict x) from by
          simp [Val.getItem?, hk]) ?_
      refine ExceptOk_bind_of (Val_getD_dict x "monthlyConsumption" (Val.int 0)) ?_
      cases ((dlookup x "monthlyConsumption").getD (Val.int 0)).asNum? with
      | none => exact ExceptOk_pure _
      | some q =>
          exact ExceptOk_ite (ExceptOk_pure _)
            (ExceptOk_ite (ExceptOk_pure _) (ExceptOk_pure _))

theorem requiredUtilityIssues_ok (ud : PyDict) (p : String) :
    ∀ fields, (∀ u ∈ fields, ∀ uv, dlookup ud u = some uv → ∃ x, uv = Val.dict x) →
      ExceptOk (requiredUtilityIssues (Val.dict ud) p fields) = true
  | [], _ => rfl
  | u :: rest, h => by
      unfold requiredUtilityIssues
      refine ExceptOk_bind (requiredUtilityIssue1_ok ud p u
        (h u (List.mem_cons_self u rest))) (fun a _ => ?_)
      refine ExceptOk_bind (requiredUtilityIssues_ok ud p rest
        (fun x hx => h x (List.mem_cons_of_mem _ hx))) (fun b _ => ?_)
      exact ExceptOk_pure _

theorem optionalUtilityIssue1_ok (ud : PyDict) (p u : String)
    (h : ∀ uv, dlookup ud u = some uv →
      ∃ x, uv = Val.dict x ∧ numOrAbsent (dlookup x "monthlyConsumption") = true) :
    ExceptOk (optionalUtilityIssue1 (Val.dict ud) p u) = true := by
  unfold optionalUtilityIssue1
  cases hk : dlookup ud u with
  | none =>
      refine ExceptOk_bind_of (by rw [Val_hasKey_dict, hk]) ?_
      exact ExceptOk_pure _
  | some uv =>
      obtain ⟨x, rfl, hnum⟩ := h uv hk
      refine ExceptOk_bind_of (by rw [Val_hasKey_dict, hk]) ?_
      show ExceptOk ((Val.dict ud).getItem? u >>= _) = true
      refine ExceptOk_bind_of
        (show (Val.dict ud).getItem? u = Except.ok (Val.dict x) from by
          simp [Val.getItem?, hk]) ?_
      refine ExceptOk_bind_of (Val_getD_dict x "monthlyConsumption" (Val.int 0)) ?_
      have hq : ∃ q, ((dlookup x "monthlyConsumption").getD (Val.int 0)).asNum? = some q := by
        cases hm : dlookup x "monthlyConsumption" with
        | none => exact ⟨_, rfl⟩
        | some w =>
            rw [hm] at hnum
            simpa [numOrAbsent, Val.isNum, Option.isSome_iff_exists] using hnum
      obtain ⟨q, hq⟩ := hq
      refine ExceptOk_bind_of
        (show pyLtNum? ((dlookup x "monthlyConsumption").getD (Val.int 0))
            (PyRat.ofInt 0) = Except.ok (q.lt (PyRat.ofInt 0)) from by
          unfold pyLtNum?; rw [hq]) ?_
      exact ExceptOk_ite (ExceptOk_pure _) (ExceptOk_pure _)

theorem optionalUtilityIssues_ok (ud : PyDict) (p : String) :
    ∀ fields, (∀ u ∈ fields, ∀ uv, dlookup ud u = some uv →
        ∃ x, uv = Val.dict x ∧ numOrAbsent (dlookup x "monthlyConsumption") = true) →
      ExceptOk (optionalUtilityIssues (Val.dict ud) p fields) = true
  | [], _ => rfl
  | u :: rest, h => by
      unfold optionalUtilityIssues
      refine ExceptOk_bind (optionalUtilityIssue1_ok ud p u
        (h u (List.mem_cons_self u rest))) (fun a _ => ?_)
      refine ExceptOk_bind (optionalUtilityIssues_ok ud p rest
        (fun x hx => h x (List.mem_cons_of_mem _ hx))) (fun b _ => ?_)
      exact ExceptOk_pure _

theorem utilEntriesReq_of_all {ud : PyDict}
    (h : requiredUtilityFields.all (fun u =>
      match dlookup ud u with
      | some (Val.dict _) => true
      | some _ => false
      | Option.none => true) = true) :
    ∀ u ∈ requiredUtilityFields, ∀ uv, dlookup ud u = some uv →
      ∃ x, uv = Val.dict x := by
  intro u hu uv huv
  have hx := List.all_eq_true.mp h u hu
  rw [huv] at hx
  cases uv
  case dict y => exact ⟨y, rfl⟩
  all_goals simp at hx

theorem utilEntriesOpt_of_all {ud : PyDict}
    (h : optionalUtilityFields.all (fun u =>
      match dlookup ud u with
      | some (Val.dict uvd) => numOrAbsent (dlookup uvd "monthlyConsumption")
      | some _ => false
      | Option.none => true) = true) :
    ∀ u ∈ optionalUtilityFields, ∀ uv, dlookup ud u = some uv →
      ∃ x, uv = Val.dict x ∧ numOrAbsent (dlookup x "monthlyConsumption") = true := by
  intro u hu uv huv
  have hx := List.all_eq_true.mp h u hu
  rw [huv] at hx
  cases uv
  case dict y => exact ⟨y, rfl, hx⟩
  all_goals simp at hx

theorem locationUtilitiesIssues_ok (d : PyDict) (p : String)
    (hutil : (match dlookup d "utilities" with
       | some (Val.dict ud) =>
           requiredUtilityFields.all (fun u =>
             match dlookup ud u with
             | some (Val.dict _) => true
             | some _ => false
             | Option.none => true) &&
           optionalUtilityFields.all (fun u =>
             match dlookup ud u with
             | some (Val.dict uvd) => numOrAbsent (dlookup uvd "monthlyConsumption")
             | some _ => false
             | Option.none => true)
       | some _ => false
       | Option.none => true) = true) :
    ExceptOk (locationUtilitiesIssues (Val.dict d) p) = true := by
  unfold locationUtilitiesIssues
  cases hu : dlookup d "utilities" with
  | none =>
      refine ExceptOk_bind_of (by rw [Val_hasKey_dict, hu]) ?_
      exact ExceptOk_pure _
  | some util =>
      rw [hu] at hutil
      refine ExceptOk_bind_of (by rw [Val_hasKey_dict, hu]) ?_
      show ExceptOk ((Val.dict d).getItem? "utilities" >>= _) = true
      refine ExceptOk_bind_of
        (show (Val.dict d).getItem? "utilities" = Except.ok util from by
          simp [Val.getItem?, hu]) ?_
      cases util
      case dict ud =>
        simp only [Bool.and_eq_true] at hutil
        unfold validateUtilitiesData
        refine ExceptOk_bind (requiredUtilityIssues_ok ud p _
          (utilEntriesReq_of_all hutil.1)) (fun x _ => ?_)
        refine ExceptOk_bind (optionalUtilityIssues_ok ud p _
          (utilEntriesOpt_of_all hutil.2)) (fun y _ => ?_)
        exact ExceptOk_pure _
      all_goals simp at hutil

theorem validateOneLocation_ok (i : Nat) {loc : Val} (h : locationShapeOk loc = true) :
    ExceptOk (validateOneLocation i loc) = true := by
  obtain ⟨d, rfl⟩ := locationShapeOk_dict h
  simp only [locationShapeOk, Bool.and_eq_true] at h
  obtain ⟨hfa, hutil⟩ := h
  unfold validateOneLocation
  refine ExceptOk_bind (locationFieldIssues_ok d _ _) (fun a _ => ?_)
  refine ExceptOk_bind (floorAreaIssues_ok d _) (fun b _ => ?_)
  refine ExceptOk_bind (locationUtilitiesIssues_ok d _ hutil) (fun c _ => ?_)
  exact ExceptOk_pure _

theorem locationsLoop_ok : ∀ (i : Nat) {locations : List Val},
    locations.all locationShapeOk = true → ExceptOk (locationsLoop i locations) = true
  | _, [], _ => rfl
  | i, loc :: rest, h => by
      rw [List.all_cons, Bool.and_eq_true] at h
      unfold locationsLoop
      refine ExceptOk_bind (validateOneLocation_ok i h.1) (fun a _ => ?_)
      refine ExceptOk_bind (locationsLoop_ok (i + 1) h.2) (fun b _ => ?_)
      exact ExceptOk_pure _

theorem validateLocationData_ok {locations : List Val}
    (h : locations.all locationShapeOk = true) :
    ExceptOk (validateLocationData locations) = true := by
  unfold validateLocationData
  split
  · exact ExceptOk_pure _
  · exact locationsLoop_ok 0 h

theorem taskShapeOk_dict {t : Val} (h : taskShapeOk t = true) :
    ∃ d, t = Val.dict d := by
  cases t
  case dict d => exact ⟨d, rfl⟩
  all_goals simp [taskShapeOk] at h

theorem taskFieldIssue_ok (d : PyDict) (p f : String) :
    ExceptOk (taskFieldIssue (Val.dict d) p f) = true := by
  unfold taskFieldIssue
  cases hk : dlookup d f with
  | none =>
      simp [Val.hasKey?, hk, Bind.bind, Except.bind, pure, Except.pure, ExceptOk,
        apply_ite ExceptOk]
  | some v =>
      cases ht : v.truthy <;>
        simp [Val.hasKey?, Val.getItem?, hk, ht, Bind.bind, Except.bind, pure,
          Except.pure, ExceptOk, apply_ite ExceptOk]

theorem taskFieldIssues_ok (d : PyDict) (p : String) :
    ∀ fields, ExceptOk (taskFieldIssues (Val.dict d) p fields) = true
  | [] => rfl
  | f :: rest => by
      unfold taskFieldIssues
      refine ExceptOk_bind (taskFieldIssue_ok d p f) (fun a _ => ?_)
      refine ExceptOk_bind (taskFieldIssues_ok d p rest) (fun b _ => ?_)
      exact ExceptOk_pure _

theorem taskIssues_ok (i : Nat) {t : Val} (h : taskShapeOk t = true) :
    ExceptOk (taskIssues i t) = true := by
  obtain ⟨d, rfl⟩ := taskShapeOk_dict h
  unfold taskIssues
  refine ExceptOk_bind (taskFieldIssues_ok d _ _) (fun a _ => ?_)
  refine ExceptOk_bind_of (Val_getD_dict d "status" Val.none) ?_
  refine ExceptOk_bind_of (Val_getD_dict d "priority" Val.none) ?_
  exact ExceptOk_pure _

theorem tasksLoop_ok : ∀ (i : Nat) {tasks : List Val},
    tasks.all taskShapeOk = true → ExceptOk (tasksLoop i tasks) = true
  | _, [], _ => rfl
  | i, t :: rest, h => by
      rw [List.all_cons, Bool.and_eq_true] at h
      unfold tasksLoop
      refine ExceptOk_bind (taskIssues_ok i h.1) (fun a _ => ?_)
      obtain ⟨is1, isC, isH⟩ := a
      refine ExceptOk_bind (tasksLoop_ok (i + 1) h.2) (fun b _ => ?_)
      obtain ⟨isDeeper, c2, h2⟩ := b
      exact ExceptOk_pure _

theorem validateTasksData_ok {tasks : List Val} (h : tasks.all taskShapeOk = true) :
    ExceptOk (validateTasksData tasks) = true := by
  unfold validateTasksData
  split
  · exact ExceptOk_pure _
  · refine ExceptOk_bind (tasksLoop_ok 0 h) (fun a _ => ?_)
    obtain ⟨is1, c, hp⟩ := a
    exact ExceptOk_pure _

theorem sumFloorAreas_ok : ∀ {locations : List Val},
    locations.all locationShapeOk = true → ExceptOk (sumFloorAreas locations) = true
  | [], _ => rfl
  | loc :: rest, h => by
      rw [List.all_cons, Bool.and_eq_true] at h
      obtain ⟨hloc, hrest⟩ := h
      obtain ⟨d, rfl⟩ := locationShapeOk_dict hloc
      simp only [locationShapeOk, Bool.and_eq_true] at hloc
      obtain ⟨hfa, _⟩ := hloc
      unfold sumFloorAreas
      refine ExceptOk_bind_of (Val_getD_dict d "totalFloorArea" (Val.int 0)) ?_
      have hq : ∃ q, ((dlookup d "totalFloorArea").getD (Val.int 0)).asNum? = some q := by
        cases hl : dlookup d "totalFloorArea" with
        | none => exact ⟨_, rfl⟩
        | some v =>
            rw [hl] at hfa
            simpa [numOrAbsent, Val.isNum, Option.isSome_iff_exists] using hfa
      obtain ⟨q, hq⟩ := hq
      refine ExceptOk_bind_of
        (show Val.toNum? ((dlookup d "totalFloorArea").getD (Val.int 0)) = Except.ok q from by
          simp [Val.toNum?, hq]) ?_
      refine ExceptOk_bind (sumFloorAreas_ok hrest) (fun b _ => ?_)
      exact ExceptOk_pure _

theorem foldlM_cons_ex {ε α σ : Type} (f : σ → α → Except ε σ) (x : α) (l : List α)
    (init : σ) :
    List.foldlM f init (x :: l) = f init x >>= fun s => List.foldlM f s l := rfl

theorem foldl_setAdd_ok : ∀ (l : List Val), l.all Val.hashable = true →
    ∀ acc : List Val,
    ExceptOk (l.foldlM (fun acc e =>
      match e with
      | Val.list _ => Except.error "TypeError"
      | Val.dict _ => Except.error "TypeError"
      | _ => pure (setAdd acc e)) acc : Except String (List Val)) = true
  | [], _, acc => rfl
  | e :: es, h, acc => by
      rw [List.all_cons, Bool.and_eq_true] at h
      rw [foldlM_cons_ex]
      cases e
      case list l2 => simp [Val.hashable] at h
      case dict d2 => simp [Val.hashable] at h
      all_goals exact ExceptOk_bind_of rfl (foldl_setAdd_ok es h.2 _)

theorem setUpdate_ok {fv : Val} (h : frameworksIterableOk fv = true) :
    ∀ acc, ExceptOk (setUpdate acc fv) = true := by
  cases fv
  case str t => intro acc; rfl
  case dict d => intro acc; rfl
  case list l =>
      intro acc
      simp only [frameworksIterableOk] at h
      exact foldl_setAdd_ok l h acc
  all_goals simp [frameworksIterableOk] at h

theorem answersFold_ok : ∀ (answers : PyDict),
    answers.all (fun p => answerShapeOk p.2) = true → ∀ acc : List Val,
    ExceptOk (answers.foldlM (fun acc p =>
      match p.2 with
      | Val.dict d =>
        match dlookup d "frameworks" with
        | some fv => setUpdate acc fv
        | Option.none => pure acc
      | _ => pure acc) acc) = true
  | [], _, acc => rfl
  | p :: rest, h, acc => by
      rw [List.all_cons, Bool.and_eq_true] at h
      obtain ⟨hp, hrest⟩ := h
      rw [foldlM_cons_ex]
      refine ExceptOk_bind ?_ (fun b _ => answersFold_ok rest hrest _)
      cases hv : p.2
      case dict d =>
        rw [hv] at hp
        simp only [answerShapeOk] at hp
        show ExceptOk (match dlookup d "frameworks" with
          | some fv => setUpdate acc fv
          | Option.none => pure acc) = true
        cases hf : dlookup d "frameworks" with
        | none => exact ExceptOk_pure _
        | some fv =>
            simp only [hf] at hp
            exact setUpdate_ok hp acc
      all_goals exact ExceptOk_pure _

theorem answerFrameworksSet_ok {answers : PyDict}
    (h : answers.all (fun p => answerShapeOk p.2) = true) :
    ExceptOk (answerFrameworksSet answers) = true :=
  answersFold_ok answers h []

theorem tasksFold_ok : ∀ (tasks : List Val),
    tasks.all taskShapeOk = true → ∀ acc : List Val,
    ExceptOk (tasks.foldlM (fun acc t => do
      let present ← t.hasKey? "frameworks"
      if present then do
        let fv ← t.getItem? "frameworks"
        setUpdate acc fv
      else pure acc) acc) = true
  | [], _, acc => rfl
  | t :: rest, h, acc => by
      rw [List.all_cons, Bool.and_eq_true] at h
      obtain ⟨ht, hrest⟩ := h
      obtain ⟨d, rfl⟩ := taskShapeOk_dict ht
      simp only [taskShapeOk] at ht
      rw [foldlM_cons_ex]
      refine ExceptOk_bind ?_ (fun b _ => tasksFold_ok rest hrest _)
      show ExceptOk ((Val.dict d).hasKey? "frameworks" >>= _) = true
      cases hf : dlookup d "frameworks" with
      | none =>
          refine ExceptOk_bind_of (by rw [Val_hasKey_dict, hf]) ?_
          exact ExceptOk_pure _
      | some fv =>
          simp only [hf] at ht
          refine ExceptOk_bind_of (by rw [Val_hasKey_dict, hf]) ?_
          show ExceptOk ((Val.dict d).getItem? "frameworks" >>= _) = true
          refine ExceptOk_bind_of
            (show (Val.dict d).getItem? "frameworks" = Except.ok fv from by
              simp [Val.getItem?, hf]) ?_
          exact setUpdate_ok ht _

theorem taskFrameworksSet_ok {tasks : List Val}
    (h : tasks.all taskShapeOk = true) :
    ExceptOk (taskFrameworksSet tasks) = true :=
  tasksFold_ok tasks h []

theorem ExceptOk_ite_cond {ε α : Type} {c : Prop} [Decidable c] {x y : Except ε α}
    (hx : c → ExceptOk x = true) (hy : ExceptOk y = true) :
    ExceptOk (if c then x else y) = true := by
  split
  · exact hx ‹c›
  · exact hy

theorem areaConsistencyIssues_ok {company : PyDict} {locations : List Val}
    (hemp : numOrAbsent (dlookup company "employees") = true)
    (hlocs : locations.all locationShapeOk = true) :
    ExceptOk (areaConsistencyIssues company locations) = true := by
  unfold areaConsistencyIssues
  refine ExceptOk_ite_cond (fun hc => ?_) (ExceptOk_pure _)
  rw [Bool.and_eq_true] at hc
  obtain ⟨v, hv⟩ := Option.isSome_iff_exists.mp hc.2
  rw [hv] at hemp
  have hq : ∃ q, v.asNum? = some q := by
    simpa [numOrAbsent, Val.isNum, Option.isSome_iff_exists] using hemp
  obtain ⟨q, hq⟩ := hq
  refine ExceptOk_bind (sumFloorAreas_ok hlocs) (fun totalArea _ => ?_)
  refine ExceptOk_ite ?_ (ExceptOk_pure _)
  refine ExceptOk_bind_of
    (show pyGtNum? ((dlookup company "employees").getD Val.none) (PyRat.ofInt 0) =
        Except.ok ((PyRat.ofInt 0).lt q) from by
      rw [hv]; simp [pyGtNum?, hq]) ?_
  refine ExceptOk_ite ?_ (ExceptOk_pure _)
  refine ExceptOk_bind_of
    (show Val.toNum? ((dlookup company "employees").getD Val.none) = Except.ok q from by
      rw [hv]; simp [Val.toNum?, hq]) ?_
  exact ExceptOk_ite (ExceptOk_pure _) (ExceptOk_ite (ExceptOk_pure _) (ExceptOk_pure _))

theorem validateDataConsistency_ok {company : PyDict} {locations : List Val}
    {answers : PyDict} {tasks : List Val}
    (hemp : numOrAbsent (dlookup company "employees") = true)
    (hlocs : locations.all locationShapeOk = true)
    (hans : answers.all (fun p => answerShapeOk p.2) = true)
    (htasks : tasks.all taskShapeOk = true) :
    ExceptOk (validateDataConsistency company locations answers tasks) = true := by
  unfold validateDataConsistency
  refine ExceptOk_bind (areaConsistencyIssues_ok hemp hlocs) (fun a _ => ?_)
  refine ExceptOk_bind (answerFrameworksSet_ok hans) (fun b _ => ?_)
  refine ExceptOk_bind (taskFrameworksSet_ok htasks) (fun c _ => ?_)
  exact ExceptOk_pure _

theorem countTruthyValField1_ok (d : PyDict) (f : String) :
    ExceptOk (countTruthyValField1 (Val.dict d) f) = true := by
  unfold countTruthyValField1
  cases hk : dlookup d f with
  | none =>
      refine ExceptOk_bind_of (by rw [Val_hasKey_dict, hk]) ?_
      exact ExceptOk_pure _
  | some v =>
      refine ExceptOk_bind_of (by rw [Val_hasKey_dict, hk]) ?_
      show ExceptOk ((Val.dict d).getItem? f >>= _) = true
      refine ExceptOk_bind_of
        (show (Val.dict d).getItem? f = Except.ok v from by simp [Val.getItem?, hk]) ?_
      exact ExceptOk_pure _

theorem countTruthyValFields_ok (d : PyDict) :
    ∀ fields, ExceptOk (countTruthyValFields (Val.dict d) fields) = true
  | [] => rfl
  | f :: rest => by
      unfold countTruthyValFields
      refine ExceptOk_bind (countTruthyValField1_ok d f) (fun a _ => ?_)
      refine ExceptOk_bind (countTruthyValFields_ok d rest) (fun b _ => ?_)
      exact ExceptOk_pure _

theorem locCompletenessSum_ok : ∀ {locations : List Val},
    locations.all locationShapeOk = true →
    ExceptOk (locCompletenessSum locations) = true
  | [], _ => rfl
  | loc :: rest, h => by
      rw [List.all_cons, Bool.and_eq_true] at h
      obtain ⟨d, rfl⟩ := locationShapeOk_dict h.1
      unfold locCompletenessSum
      refine ExceptOk_bind (countTruthyValFields_ok d _) (fun a _ => ?_)
      refine ExceptOk_bind (locCompletenessSum_ok h.2) (fun b _ => ?_)
      exact ExceptOk_pure _

theorem locationsEarned_ok {locations : List Val}
    (h : locations.all locationShapeOk = true) :
    ExceptOk (locationsEarned locations) = true := by
  unfold locationsEarned
  refine ExceptOk_ite ?_ ?_
  · exact ExceptOk_pure _
  · refine ExceptOk_bind (locCompletenessSum_ok h) (fun a _ => ?_)
    exact ExceptOk_pure _

theorem taskFieldsComplete_ok (d : PyDict) :
    ∀ fields, ExceptOk (taskFieldsComplete (Val.dict d) fields) = true
  | [] => rfl
  | f :: rest => by
      unfold taskFieldsComplete
      cases hk : dlookup d f with
      | none =>
          refine ExceptOk_bind_of (by rw [Val_hasKey_dict, hk]) ?_
          exact ExceptOk_pure _
      | some v =>
          refine ExceptOk_bind_of (by rw [Val_hasKey_dict, hk]) ?_
          show ExceptOk ((Val.dict d).getItem? f >>= _) = true
          refine ExceptOk_bind_of
            (show (Val.dict d).getItem? f = Except.ok v from by simp [Val.getItem?, hk]) ?_
          refine ExceptOk_ite ?_ (ExceptOk_pure _)
          exact taskFieldsComplete_ok d rest

theorem countCompleteTasks_ok : ∀ {tasks : List Val},
    tasks.all taskShapeOk = true → ExceptOk (countCompleteTasks tasks) = true
  | [], _ => rfl
  | t :: rest, h => by
      rw [List.all_cons, Bool.and_eq_true] at h
      obtain ⟨d, rfl⟩ := taskShapeOk_dict h.1
      unfold countCompleteTasks
      refine ExceptOk_bind (taskFieldsComplete_ok d _) (fun a _ => ?_)
      refine ExceptOk_bind (countCompleteTasks_ok h.2) (fun b _ => ?_)
      exact ExceptOk_pure _

theorem tasksEarned_ok {tasks : List Val} (h : tasks.all taskShapeOk = true) :
    ExceptOk (tasksEarned tasks) = true := by
  unfold tasksEarned
  refine ExceptOk_ite ?_ ?_
  · exact ExceptOk_pure _
  · refine ExceptOk_bind (countCompleteTasks_ok h) (fun a _ => ?_)
    exact ExceptOk_pure _

theorem calcCompletenessScore_ok {company : PyDict} {locations : List Val}
    {answers : PyDict} {tasks : List Val}
    (hlocs : locations.all locationShapeOk = true)
    (htasks : tasks.all taskShapeOk = true) :
    ExceptOk (calcCompletenessScore company locations answers tasks) = true := by
  unfold calcCompletenessScore
  refine ExceptOk_bind (locationsEarned_ok hlocs) (fun a _ => ?_)
  refine ExceptOk_bind (tasksEarned_ok htasks) (fun b _ => ?_)
  exact ExceptOk_ite (ExceptOk_pure _) (ExceptOk_pure _)

/-- C7 counterexample: on a location whose `electricity` utility entry is
the bare number 5, `validate_report_data` raises `AttributeError`
(`utilities["electricity"].get(...)` on an int) instead of returning a
result. -/
theorem validateReportData_raises_on_badUtility :
    (validateReportData [] badUtilityLocations [] []).map (fun _ => ()) =
      Except.error "AttributeError" := by decide

/-- C7 (amended): the validator raises no exception — every problem becomes
an issue in a returned result — provided the collections are well-shaped
(locations, their utility entries and tasks are dicts, utility consumption
values and the employee count are numbers where compared, and `frameworks`
entries are iterables of hashables). -/
theorem validateReportData_total_on_wellShaped (company : PyDict)
    (locations : List Val) (answers : PyDict) (tasks : List Val)
    (h : wellShapedInputs company locations answers tasks = true) :
    ∃ r, validateReportData company locations answers tasks = Except.ok r := by
  simp only [wellShapedInputs, Bool.and_eq_true] at h
  obtain ⟨⟨⟨hemp, hlocs⟩, hans⟩, htasks⟩ := h
  apply ExceptOk_exists
  unfold validateReportData
  refine ExceptOk_bind (validateLocationData_ok hlocs) (fun i2 _ => ?_)
  refine ExceptOk_bind (validateTasksData_ok htasks) (fun i4 _ => ?_)
  refine ExceptOk_bind (validateDataConsistency_ok hemp hlocs hans htasks)
    (fun i5 _ => ?_)
  refine ExceptOk_bind (calcCompletenessScore_ok hlocs htasks) (fun comp _ => ?_)
  exact ExceptOk_pure _

/-- C7 witness: the amended theorem applied to a concrete well-shaped
input. -/
theorem validateReportData_total_on_wellShaped_witness :
    ∃ r, validateReportData [("employees", Val.int 10)]
      [Val.dict [("totalFloorArea", Val.int 100)]] [] [] = Except.ok r :=
  validateReportData_total_on_wellShaped _ _ _ _ (by decide)

/-! ## Carbon-footprint monotonicity -/

theorem wfNums_goD_lookup : ∀ (d : PyDict) (k : String) (v : Val),
    Val.wfNums.goD d = true → dlookup d k = some v → v.wfNums = true
  | [], _, _, _, h2 => by simp [dlookup] at h2
  | (k', x) :: rest, k, v, h1, h2 => by
      rw [Val.wfNums.goD, Bool.and_eq_true] at h1
      unfold dlookup at h2
      split at h2
      · injection h2 with h2; subst h2; exact h1.1
      · exact wfNums_goD_lookup rest k v h1.2 h2

theorem wfNums_dict_lookup {d : PyDict} {k : String} {v : Val}
    (h1 : Val.wfNums (Val.dict d) = true) (h2 : dlookup d k = some v) :
    v.wfNums = true :=
  wfNums_goD_lookup d k v h1 h2

theorem wfNums_asNum {v : Val} {q : PyRat} (hw : v.wfNums = true)
    (hq : v.asNum? = some q) : q.wf := by
  cases v with
  | bool b =>
      simp only [Val.asNum?, Option.some.injEq] at hq
      subst hq
      exact PyRat.wf_ofInt _
  | int i =>
      simp only [Val.asNum?, Option.some.injEq] at hq
      subst hq
      exact PyRat.wf_ofInt _
  | float qq =>
      simp only [Val.asNum?, Option.some.injEq] at hq
      subst hq
      simpa [Val.wfNums] using hw
  | none => simp [Val.asNum?] at hq
  | str s => simp [Val.asNum?] at hq
  | list l => simp [Val.asNum?] at hq
  | dict d => simp [Val.asNum?] at hq

theorem dlookup_dictSet_self : ∀ (d : PyDict) (k : String) (v : Val),
    dlookup (dictSet d k v) k = some v
  | [], k, v => by simp [dictSet, dlookup]
  | (k', w) :: rest, k, v => by
      unfold dictSet
      by_cases h : k' = k
      · rw [if_pos h]
        simp [dlookup]
      · rw [if_neg h]
        unfold dlookup
        rw [if_neg h]
        exact dlookup_dictSet_self rest k v

theorem dlookup_dictSet_ne : ∀ (d : PyDict) (k k' : String) (v : Val), k' ≠ k →
    dlookup (dictSet d k v) k' = dlookup d k'
  | [], k, k', v, h => by
      unfold dictSet dlookup
      rw [if_neg (fun hh => h hh.symm)]
      rfl
  | (k0, w) :: rest, k, k', v, h => by
      unfold dictSet
      by_cases h0 : k0 = k
      · rw [if_pos h0]
        unfold dlookup
        rw [if_neg (fun hh => h hh.symm), if_neg (fun hh => h (h0 ▸ hh).symm)]
      · rw [if_neg h0]
        unfold dlookup
        by_cases h1 : k0 = k'
        · rw [if_pos h1, if_pos h1]
        · rw [if_neg h1, if_neg h1]
          exact dlookup_dictSet_ne rest k k' v h

theorem toNum_wf {v : Val} {q : PyRat} (hw : v.wfNums = true)
    (h : v.toNum? = Except.ok q) : q.wf := by
  unfold Val.toNum? at h
  cases hv : v.asNum? with
  | none => rw [hv] at h; exact absurd h (by simp)
  | some q' =>
      rw [hv] at h
      injection h with h
      subst h
      exact wfNums_asNum hw hv

theorem getDefault_wf {d : PyDict} {k : String} {dflt : Val}
    (hw : Val.wfNums (Val.dict d) = true) (hd : dflt.wfNums = true) :
    ((dlookup d k).getD dflt).wfNums = true := by
  cases hk : dlookup d k with
  | none => exact hd
  | some w => exact wfNums_dict_lookup hw hk

theorem utilContribution_wf {U : Val} {u : String} {fac c : PyRat}
    (hw : U.wfNums = true) (hfac : fac.wf)
    (h : utilContribution U u fac = Except.ok c) : c.wf := by
  unfold utilContribution at h
  cases U with
  | dict d =>
      rw [Val_hasKey_dict, ok_bind] at h
      cases hk : dlookup d u with
      | none =>
          rw [hk] at h
          simp only [Option.isSome] at h
          rw [if_neg (by simp)] at h
          rw [exceptPure_ok] at h
          subst h
          exact PyRat.wf_ofInt 0
      | some uv =>
          rw [hk] at h
          simp only [Option.isSome] at h
          rw [if_pos trivial] at h
          have huv : uv.wfNums = true := wfNums_dict_lookup hw hk
          rw [show (Val.dict d).getItem? u = Except.ok uv from by
            simp [Val.getItem?, hk], ok_bind] at h
          cases uv with
          | dict x =>
              rw [Val_getD_dict, ok_bind] at h
              cases hm : ((dlookup x "monthlyConsumption").getD (Val.int 0)).asNum? with
              | none => rw [hm] at h; exact absurd h (by simp)
              | some q' =>
                  rw [hm] at h
                  rw [exceptPure_ok] at h
                  subst h
                  have hqw : q'.wf :=
                    wfNums_asNum (getDefault_wf huv (by rfl)) hm
                  exact PyRat.wf_div (PyRat.wf_mul (PyRat.wf_mul hqw
                    (PyRat.wf_ofInt 12)) hfac)
          | none => exact absurd h (by simp [Val.getD?, Bind.bind, Except.bind])
          | bool b => exact absurd h (by simp [Val.getD?, Bind.bind, Except.bind])
          | int i => exact absurd h (by simp [Val.getD?, Bind.bind, Except.bind])
          | float qq => exact absurd h (by simp [Val.getD?, Bind.bind, Except.bind])
          | str s2 => exact absurd h (by simp [Val.getD?, Bind.bind, Except.bind])
          | list l2 => exact absurd h (by simp [Val.getD?, Bind.bind, Except.bind])
  | list l =>
      rw [show (Val.list l).hasKey? u = Except.ok (pyMemList (Val.str u) l) from rfl,
        ok_bind] at h
      cases hb : pyMemList (Val.str u) l with
      | false =>
          rw [hb] at h
          rw [if_neg (by simp)] at h
          rw [exceptPure_ok] at h
          subst h
          exact PyRat.wf_ofInt 0
      | true =>
          rw [hb] at h
          rw [if_pos rfl] at h
          exact absurd h (by simp [Val.getItem?, Bind.bind, Except.bind])
  | str s2 =>
      rw [show (Val.str s2).hasKey? u = Except.ok (charsInfix u.data s2.data) from rfl,
        ok_bind] at h
      cases hb : charsInfix u.data s2.data with
      | false =>
          rw [hb] at h
          rw [if_neg (by simp)] at h
          rw [exceptPure_ok] at h
          subst h
          exact PyRat.wf_ofInt 0
      | true =>
          rw [hb] at h
          rw [if_pos rfl] at h
          exact absurd h (by simp [Val.getItem?, Bind.bind, Except.bind])
  | none => exact absurd h (by simp [Val.hasKey?, Bind.bind, Except.bind])
  | bool b => exact absurd h (by simp [Val.hasKey?, Bind.bind, Except.bind])
  | int i => exact absurd h (by simp [Val.hasKey?, Bind.bind, Except.bind])
  | float qq => exact absurd h (by simp [Val.hasKey?, Bind.bind, Except.bind])

theorem calcScope1_wf {U : Val} {s : PyRat} (hw : U.wfNums = true)
    (h : calcScope1Emissions U = Except.ok s) : s.wf := by
  unfold calcScope1Emissions at h
  simp only [exceptBind_ok] at h
  obtain ⟨g, hg, h⟩ := h
  obtain ⟨l, hl, h⟩ := h
  rw [exceptPure_ok] at h
  subst h
  exact PyRat.wf_add (utilContribution_wf hw (by decide) hg)
    (utilContribution_wf hw (by decide) hl)

theorem calcScope2_wf {U : Val} {s : PyRat} (hw : U.wfNums = true)
    (h : calcScope2Emissions U = Except.ok s) : s.wf := by
  unfold calcScope2Emissions at h
  simp only [exceptBind_ok] at h
  obtain ⟨g, hg, h⟩ := h
  obtain ⟨l, hl, h⟩ := h
  rw [exceptPure_ok] at h
  subst h
  exact PyRat.wf_add (utilContribution_wf hw (by decide) hg)
    (utilContribution_wf hw (by decide) hl)

theorem getD_dict_ok {loc : Val} {k : String} {dflt ut : Val}
    (h : loc.getD? k dflt = Except.ok ut) :
    ∃ d, loc = Val.dict d ∧ ut = (dlookup d k).getD dflt := by
  cases loc <;> simp [Val.getD?] at h
  exact ⟨_, rfl, h.symm⟩

theorem footprintLoop_wf : ∀ {L : List Val}, L.all Val.wfNums = true →
    ∀ {t : PyRat × PyRat × PyRat}, footprintLoop L = Except.ok t →
    t.1.wf ∧ t.2.1.wf ∧ t.2.2.wf
  | [], _, t, h => by
      rw [show footprintLoop [] = Except.ok (PyRat.ofInt 0, PyRat.ofInt 0, PyRat.ofInt 0)
        from rfl] at h
      injection h with h
      subst h
      exact ⟨PyRat.wf_ofInt 0, PyRat.wf_ofInt 0, PyRat.wf_ofInt 0⟩
  | loc :: rest, hall, t, h => by
      rw [List.all_cons, Bool.and_eq_true] at hall
      obtain ⟨hloc, hrest⟩ := hall
      unfold footprintLoop at h
      simp only [exceptBind_ok] at h
      obtain ⟨ut, hut, h⟩ := h
      obtain ⟨fv, hfv, h⟩ := h
      obtain ⟨fl, hfl, h⟩ := h
      obtain ⟨s1, hs1, h⟩ := h
      obtain ⟨s2, hs2, h⟩ := h
      obtain ⟨trest, htrest, h⟩ := h
      obtain ⟨a, b, c⟩ := trest
      simp only [exceptPure_ok] at h
      subst h
      obtain ⟨d, rfl, hutv⟩ := getD_dict_ok hut
      obtain ⟨d2, hd2, hfvv⟩ := getD_dict_ok hfv
      have hdd : d2 = d := by injection hd2 with hh; exact hh.symm
      rw [hdd] at hfvv
      subst hutv
      subst hfvv
      have hfvw : Val.wfNums ((dlookup d "totalFloorArea").getD (Val.int 0)) = true :=
        getDefault_wf hloc (by rfl)
      have hutw : Val.wfNums ((dlookup d "utilities").getD (Val.dict [])) = true :=
        getDefault_wf hloc (by rfl)
      have hrw := footprintLoop_wf hrest htrest
      exact ⟨PyRat.wf_add (toNum_wf hfvw hfl) hrw.1,
             PyRat.wf_add (calcScope1_wf hutw hs1) hrw.2.1,
             PyRat.wf_add (calcScope2_wf hutw hs2) hrw.2.2⟩

theorem PyRat.toRat_div_dzero {x b : PyRat} (hb : b.d = 0) : (x.div b).toRat = 0 := by
  unfold PyRat.div
  by_cases h0 : b.n = 0
  · rw [if_pos h0]
    simp [PyRat.toRat]
  · rw [if_neg h0]
    by_cases hneg : b.n < 0
    · rw [if_pos hneg]
      simp [PyRat.toRat, hb]
    · rw [if_neg hneg]
      simp [PyRat.toRat, hb]

theorem PyRat.toRat_div_zero_num {x b : PyRat} (hx : x.n = 0) : (x.div b).toRat = 0 := by
  unfold PyRat.div
  by_cases h0 : b.n = 0
  · rw [if_pos h0]
    simp [PyRat.toRat]
  · rw [if_neg h0]
    by_cases hneg : b.n < 0
    · rw [if_pos hneg]
      simp [PyRat.toRat, hx]
    · rw [if_neg hneg]
      simp [PyRat.toRat, hx]

theorem utilContribution_dict_present {D : PyDict} {u : String} {uvd : PyDict}
    (hk : dlookup D u = some (Val.dict uvd)) (fac : PyRat) :
    utilContribution (Val.dict D) u fac =
      match ((dlookup uvd "monthlyConsumption").getD (Val.int 0)).asNum? with
      | some q => Except.ok (((q.mul (PyRat.ofInt 12)).mul fac).div (PyRat.ofInt 1000))
      | Option.none => Except.error "TypeError" := by
  unfold utilContribution
  rw [Val_hasKey_dict, ok_bind, hk]
  simp only [Option.isSome]
  rw [if_pos trivial]
  rw [show (Val.dict D).getItem? u = Except.ok (Val.dict uvd) from by
    simp [Val.getItem?, hk]]
  rw [ok_bind]
  simp only [Val.getD?]
  rw [ok_bind]
  cases ((dlookup uvd "monthlyConsumption").getD (Val.int 0)).asNum? <;> rfl

theorem utilContribution_dict_eqlookup {D1 D2 : PyDict} {u : String}
    (h : dlookup D1 u = dlookup D2 u) (fac : PyRat) :
    utilContribution (Val.dict D1) u fac = utilContribution (Val.dict D2) u fac := by
  unfold utilContribution
  rw [Val_hasKey_dict, Val_hasKey_dict, ok_bind, ok_bind, h]
  cases hk : dlookup D2 u with
  | none => rfl
  | some uv =>
      simp only [Option.isSome]
      rw [if_pos trivial, if_pos trivial]
      rw [show (Val.dict D1).getItem? u = Except.ok uv from by simp [Val.getItem?, h, hk],
          show (Val.dict D2).getItem? u = Except.ok uv from by simp [Val.getItem?, hk]]

theorem utilContribution_updUtil_self (ud uvd : PyDict) (u : String) (q fac : PyRat) :
    utilContribution (updUtil ud uvd u q) u fac =
      Except.ok (((q.mul (PyRat.ofInt 12)).mul fac).div (PyRat.ofInt 1000)) := by
  rw [show updUtil ud uvd u q = Val.dict (dictSet ud u
    (Val.dict (dictSet uvd "monthlyConsumption" (Val.float q)))) from rfl]
  rw [utilContribution_dict_present (dlookup_dictSet_self ud u _) fac]
  rw [dlookup_dictSet_self]
  rfl

theorem utilContribution_updUtil_other (ud uvd : PyDict) (u u' : String)
    (q fac : PyRat) (h : u' ≠ u) :
    utilContribution (updUtil ud uvd u q) u' fac =
      utilContribution (Val.dict ud) u' fac := by
  rw [show updUtil ud uvd u q = Val.dict (dictSet ud u
    (Val.dict (dictSet uvd "monthlyConsumption" (Val.float q)))) from rfl]
  exact utilContribution_dict_eqlookup (dlookup_dictSet_ne ud u u' _ h) fac

theorem utilContribution_updUtil_mono {ud uvd : PyDict} {u u' : String}
    {q1 q2 fac : PyRat}
    (hq1 : q1.wf) (hq2 : q2.wf) (hle : q1.toRat ≤ q2.toRat)
    (hw1 : (updUtil ud uvd u q1).wfNums = true)
    (hw2 : (updUtil ud uvd u q2).wfNums = true)
    (hfac : fac.wf) (hfacnn : 0 ≤ fac.toRat)
    {c1 c2 : PyRat}
    (h1 : utilContribution (updUtil ud uvd u q1) u' fac = Except.ok c1)
    (h2 : utilContribution (updUtil ud uvd u q2) u' fac = Except.ok c2) :
    c1.wf ∧ c2.wf ∧ c1.toRat ≤ c2.toRat := by
  refine ⟨utilContribution_wf hw1 hfac h1, utilContribution_wf hw2 hfac h2, ?_⟩
  by_cases hu : u' = u
  · subst hu
    rw [utilContribution_updUtil_self] at h1 h2
    injection h1 with h1
    injection h2 with h2
    subst h1
    subst h2
    rw [PyRat.toRat_div (PyRat.wf_mul (PyRat.wf_mul hq1 (PyRat.wf_ofInt 12)) hfac)
          (PyRat.wf_ofInt 1000),
        PyRat.toRat_div (PyRat.wf_mul (PyRat.wf_mul hq2 (PyRat.wf_ofInt 12)) hfac)
          (PyRat.wf_ofInt 1000),
        PyRat.toRat_mul (PyRat.wf_mul hq1 (PyRat.wf_ofInt 12)) hfac,
        PyRat.toRat_mul (PyRat.wf_mul hq2 (PyRat.wf_ofInt 12)) hfac,
        PyRat.toRat_mul hq1 (PyRat.wf_ofInt 12),
        PyRat.toRat_mul hq2 (PyRat.wf_ofInt 12),
        PyRat.toRat_ofInt, PyRat.toRat_ofInt]
    have hnum := mul_le_mul_of_nonneg_right
      (mul_le_mul_of_nonneg_right hle (by norm_num : (0:ℚ) ≤ ((12:Int):ℚ))) hfacnn
    exact div_le_div_of_nonneg_right hnum (by norm_num)
  · rw [utilContribution_updUtil_other ud uvd u u' q1 fac hu] at h1
    rw [utilContribution_updUtil_other ud uvd u u' q2 fac hu] at h2
    rw [h1] at h2
    injection h2 with h2
    rw [h2]

theorem calcScope1_updUtil_mono {ud uvd : PyDict} {u : String} {q1 q2 : PyRat}
    (hq1 : q1.wf) (hq2 : q2.wf) (hle : q1.toRat ≤ q2.toRat)
    (hw1 : (updUtil ud uvd u q1).wfNums = true)
    (hw2 : (updUtil ud uvd u q2).wfNums = true)
    {s1 s2 : PyRat}
    (h1 : calcScope1Emissions (updUtil ud uvd u q1) = Except.ok s1)
    (h2 : calcScope1Emissions (updUtil ud uvd u q2) = Except.ok s2) :
    s1.wf ∧ s2.wf ∧ s1.toRat ≤ s2.toRat := by
  unfold calcScope1Emissions at h1 h2
  simp only [exceptBind_ok] at h1 h2
  obtain ⟨g1, hg1, h1⟩ := h1
  obtain ⟨l1, hl1, h1⟩ := h1
  rw [exceptPure_ok] at h1
  subst h1
  obtain ⟨g2, hg2, h2⟩ := h2
  obtain ⟨l2, hl2, h2⟩ := h2
  rw [exceptPure_ok] at h2
  subst h2
  obtain ⟨hgw1, hgw2, hgle⟩ := utilContribution_updUtil_mono hq1 hq2 hle hw1 hw2
    (by decide) (by norm_num [PyRat.toRat, emissionFactorNaturalGas]) hg1 hg2
  obtain ⟨hlw1, hlw2, hlle⟩ := utilContribution_updUtil_mono hq1 hq2 hle hw1 hw2
    (by decide) (by norm_num [PyRat.toRat, emissionFactorLpg]) hl1 hl2
  refine ⟨PyRat.wf_add hgw1 hlw1, PyRat.wf_add hgw2 hlw2, ?_⟩
  rw [PyRat.toRat_add hgw1 hlw1, PyRat.toRat_add hgw2 hlw2]
  exact add_le_add hgle hlle

theorem calcScope2_updUtil_mono {ud uvd : PyDict} {u : String} {q1 q2 : PyRat}
    (hq1 : q1.wf) (hq2 : q2.wf) (hle : q1.toRat ≤ q2.toRat)
    (hw1 : (updUtil ud uvd u q1).wfNums = true)
    (hw2 : (updUtil ud uvd u q2).wfNums = true)
    {s1 s2 : PyRat}
    (h1 : calcScope2Emissions (updUtil ud uvd u q1) = Except.ok s1)
    (h2 : calcScope2Emissions (updUtil ud uvd u q2) = Except.ok s2) :
    s1.wf ∧ s2.wf ∧ s1.toRat ≤ s2.toRat := by
  unfold calcScope2Emissions at h1 h2
  simp only [exceptBind_ok] at h1 h2
  obtain ⟨g1, hg1, h1⟩ := h1
  obtain ⟨l1, hl1, h1⟩ := h1
  rw [exceptPure_ok] at h1
  subst h1
  obtain ⟨g2, hg2, h2⟩ := h2
  obtain ⟨l2, hl2, h2⟩ := h2
  rw [exceptPure_ok] at h2
  subst h2
  obtain ⟨hgw1, hgw2, hgle⟩ := utilContribution_updUtil_mono hq1 hq2 hle hw1 hw2
    (by decide) (by norm_num [PyRat.toRat, emissionFactorElectricity]) hg1 hg2
  obtain ⟨hlw1, hlw2, hlle⟩ := utilContribution_updUtil_mono hq1 hq2 hle hw1 hw2
    (by decide) (by norm_num [PyRat.toRat, emissionFactorDistrictCooling]) hl1 hl2
  refine ⟨PyRat.wf_add hgw1 hlw1, PyRat.wf_add hgw2 hlw2, ?_⟩
  rw [PyRat.toRat_add hgw1 hlw1, PyRat.toRat_add hgw2 hlw2]
  exact add_le_add hgle hlle

theorem footprintLoop_cons_ok {loc : Val} {rest : List Val} {t : PyRat × PyRat × PyRat}
    (h : footprintLoop (loc :: rest) = Except.ok t) :
    ∃ d fl s1 s2 a b c, loc = Val.dict d ∧
      ((dlookup d "totalFloorArea").getD (Val.int 0)).toNum? = Except.ok fl ∧
      calcScope1Emissions ((dlookup d "utilities").getD (Val.dict [])) = Except.ok s1 ∧
      calcScope2Emissions ((dlookup d "utilities").getD (Val.dict [])) = Except.ok s2 ∧
      footprintLoop rest = Except.ok (a, b, c) ∧
      t = (fl.add a, s1.add b, s2.add c) := by
  unfold footprintLoop at h
  simp only [exceptBind_ok] at h
  obtain ⟨ut, hut, h⟩ := h
  obtain ⟨fv, hfv, h⟩ := h
  obtain ⟨fl, hfl, h⟩ := h
  obtain ⟨s1, hs1, h⟩ := h
  obtain ⟨s2, hs2, h⟩ := h
  obtain ⟨trest, htrest, h⟩ := h
  obtain ⟨a, b, c⟩ := trest
  simp only [exceptPure_ok] at h
  obtain ⟨d, hld, hutv⟩ := getD_dict_ok hut
  obtain ⟨d2, hd2, hfvv⟩ := getD_dict_ok hfv
  rw [hld] at hd2
  have hdd : d2 = d := by injection hd2 with hh; exact hh.symm
  rw [hdd] at hfvv
  subst hutv
  subst hfvv
  exact ⟨d, fl, s1, s2, a, b, c, hld, hfl, hs1, hs2, htrest, h.symm⟩

theorem setConsumption_cases (loc : Val) (u : String) :
    (∃ d ud uvd, loc = Val.dict d ∧ dlookup d "utilities" = some (Val.dict ud) ∧
      dlookup ud u = some (Val.dict uvd) ∧
      ∀ q, setConsumption loc u q = updLoc d ud uvd u q) ∨
    (∀ q, setConsumption loc u q = loc) := by
  cases loc with
  | dict d =>
      cases h1 : dlookup d "utilities" with
      | none => exact Or.inr (fun q => by simp [setConsumption, h1])
      | some uv =>
          cases uv with
          | dict ud =>
              cases h2 : dlookup ud u with
              | none => exact Or.inr (fun q => by simp [setConsumption, h1, h2])
              | some w =>
                  cases w with
                  | dict uvd =>
                      exact Or.inl ⟨d, ud, uvd, rfl, h1, h2,
                        fun q => by simp [setConsumption, h1, h2, updLoc, updUtil]⟩
                  | none => exact Or.inr (fun q => by simp [setConsumption, h1, h2])
                  | bool b => exact Or.inr (fun q => by simp [setConsumption, h1, h2])
                  | int i => exact Or.inr (fun q => by simp [setConsumption, h1, h2])
                  | float qq => exact Or.inr (fun q => by simp [setConsumption, h1, h2])
                  | str s => exact Or.inr (fun q => by simp [setConsumption, h1, h2])
                  | list l => exact Or.inr (fun q => by simp [setConsumption, h1, h2])
          | none => exact Or.inr (fun q => by simp [setConsumption, h1])
          | bool b => exact Or.inr (fun q => by simp [setConsumption, h1])
          | int i => exact Or.inr (fun q => by simp [setConsumption, h1])
          | float qq => exact Or.inr (fun q => by simp [setConsumption, h1])
          | str s => exact Or.inr (fun q => by simp [setConsumption, h1])
          | list l => exact Or.inr (fun q => by simp [setConsumption, h1])
  | none => exact Or.inr (fun q => rfl)
  | bool b => exact Or.inr (fun q => rfl)
  | int i => exact Or.inr (fun q => rfl)
  | float qq => exact Or.inr (fun q => rfl)
  | str s => exact Or.inr (fun q => rfl)
  | list l => exact Or.inr (fun q => rfl)

theorem footprintLoop_update_mono : ∀ (L : List Val) (i : Nat) (u : String)
    (q1 q2 : PyRat), q1.wf → q2.wf → q1.toRat ≤ q2.toRat →
    ∀ (t1 t2 : PyRat × PyRat × PyRat),
    (modifyAt L i (fun loc => setConsumption loc u q1)).all Val.wfNums = true →
    (modifyAt L i (fun loc => setConsumption loc u q2)).all Val.wfNums = true →
    footprintLoop (modifyAt L i (fun loc => setConsumption loc u q1)) = Except.ok t1 →
    footprintLoop (modifyAt L i (fun loc => setConsumption loc u q2)) = Except.ok t2 →
    t1.1 = t2.1 ∧ t1.2.1.toRat ≤ t2.2.1.toRat ∧ t1.2.2.toRat ≤ t2.2.2.toRat
  | [], i, u, q1, q2, hq1, hq2, hle, t1, t2, hall1, hall2, h1, h2 => by
      simp only [modifyAt] at h1 h2
      rw [show footprintLoop [] =
        Except.ok (PyRat.ofInt 0, PyRat.ofInt 0, PyRat.ofInt 0) from rfl] at h1 h2
      injection h1 with h1
      injection h2 with h2
      subst h1
      subst h2
      exact ⟨rfl, le_refl _, le_refl _⟩
  | x :: xs, 0, u, q1, q2, hq1, hq2, hle, t1, t2, hall1, hall2, h1, h2 => by
      simp only [modifyAt] at h1 h2 hall1 hall2
      rcases setConsumption_cases x u with ⟨d, ud, uvd, hx, hud, huvd, hupd⟩ | hid
      · rw [hupd q1] at h1 hall1
        rw [hupd q2] at h2 hall2
        rw [List.all_cons, Bool.and_eq_true] at hall1 hall2
        obtain ⟨hw1, hrest⟩ := hall1
        obtain ⟨hw2, hrest'⟩ := hall2
        obtain ⟨d1, fl1, s11, s21, a1, b1, c1, hld1, hfl1, hs11, hs21, hrest1, ht1⟩ :=
          footprintLoop_cons_ok h1
        obtain ⟨d2, fl2, s12, s22, a2, b2, c2, hld2, hfl2, hs12, hs22, hrest2, ht2⟩ :=
          footprintLoop_cons_ok h2
        have hd1 : d1 = dictSet d "utilities" (updUtil ud uvd u q1) := by
          rw [show updLoc d ud uvd u q1 =
            Val.dict (dictSet d "utilities" (updUtil ud uvd u q1)) from rfl] at hld1
          injection hld1 with hh
          exact hh.symm
        have hd2' : d2 = dictSet d "utilities" (updUtil ud uvd u q2) := by
          rw [show updLoc d ud uvd u q2 =
            Val.dict (dictSet d "utilities" (updUtil ud uvd u q2)) from rfl] at hld2
          injection hld2 with hh
          exact hh.symm
        subst hd1
        subst hd2'
        rw [dlookup_dictSet_ne d "utilities" "totalFloorArea" _ (by decide)] at hfl1 hfl2
        rw [hfl1] at hfl2
        injection hfl2 with hfl2
        subst hfl2
        rw [dlookup_dictSet_self d "utilities" _] at hs11 hs21 hs12 hs22
        simp only [Option.getD_some] at hs11 hs21 hs12 hs22
        have hU1 : (updUtil ud uvd u q1).wfNums = true :=
          wfNums_dict_lookup hw1 (dlookup_dictSet_self d "utilities" _)
        have hU2 : (updUtil ud uvd u q2).wfNums = true :=
          wfNums_dict_lookup hw2 (dlookup_dictSet_self d "utilities" _)
        obtain ⟨h11w, h12w, h1le⟩ := calcScope1_updUtil_mono hq1 hq2 hle hU1 hU2 hs11 hs12
        obtain ⟨h21w, h22w, h2le⟩ := calcScope2_updUtil_mono hq1 hq2 hle hU1 hU2 hs21 hs22
        rw [hrest1] at hrest2
        injection hrest2 with hrest2
        obtain ⟨hae, hbe, hce⟩ : a1 = a2 ∧ b1 = b2 ∧ c1 = c2 := by simpa using hrest2
        subst hae
        subst hbe
        subst hce
        obtain ⟨haw, hbw, hcw⟩ := footprintLoop_wf hrest hrest1
        subst ht1
        subst ht2
        refine ⟨rfl, ?_, ?_⟩
        · show (s11.add b1).toRat ≤ (s12.add b1).toRat
          rw [PyRat.toRat_add h11w hbw, PyRat.toRat_add h12w hbw]
          exact add_le_add h1le (le_refl _)
        · show (s21.add c1).toRat ≤ (s22.add c1).toRat
          rw [PyRat.toRat_add h21w hcw, PyRat.toRat_add h22w hcw]
          exact add_le_add h2le (le_refl _)
      · rw [hid q1] at h1
        rw [hid q2] at h2
        rw [h1] at h2
        injection h2 with h2
        subst h2
        exact ⟨rfl, le_refl _, le_refl _⟩
  | x :: xs, Nat.succ j, u, q1, q2, hq1, hq2, hle, t1, t2, hall1, hall2, h1, h2 => by
      simp only [modifyAt] at h1 h2 hall1 hall2
      rw [List.all_cons, Bool.and_eq_true] at hall1 hall2
      obtain ⟨hwx, hrest1all⟩ := hall1
      obtain ⟨hwx2, hrest2all⟩ := hall2
      obtain ⟨d1, fl1, s11, s21, a1, b1, c1, hld1, hfl1, hs11, hs21, hrest1, ht1⟩ :=
        footprintLoop_cons_ok h1
      obtain ⟨d2, fl2, s12, s22, a2, b2, c2, hld2, hfl2, hs12, hs22, hrest2, ht2⟩ :=
        footprintLoop_cons_ok h2
      rw [hld1] at hld2
      have hdd : d2 = d1 := by injection hld2 with hh; exact hh.symm
      rw [hdd] at hfl2 hs12 hs22
      rw [hfl1] at hfl2
      injection hfl2 with hfl2
      subst hfl2
      rw [hs11] at hs12
      injection hs12 with hs12
      subst hs12
      rw [hs21] at hs22
      injection hs22 with hs22
      subst hs22
      obtain ⟨hfeq, hble, hcle⟩ := footprintLoop_update_mono xs j u q1 q2 hq1 hq2 hle
        (a1, b1, c1) (a2, b2, c2) hrest1all hrest2all hrest1 hrest2
      have hfeq' : a1 = a2 := hfeq
      subst hfeq'
      rw [hld1] at hwx
      have hEw : Val.wfNums ((dlookup d1 "utilities").getD (Val.dict [])) = true :=
        getDefault_wf hwx (by rfl)
      have hs11w : s11.wf := calcScope1_wf hEw hs11
      have hs21w : s21.wf := calcScope2_wf hEw hs21
      obtain ⟨haw1, hbw1, hcw1⟩ := footprintLoop_wf hrest1all hrest1
      obtain ⟨haw2, hbw2, hcw2⟩ := footprintLoop_wf hrest2all hrest2
      subst ht1
      subst ht2
      refine ⟨rfl, ?_, ?_⟩
      · show (s11.add b1).toRat ≤ (s11.add b2).toRat
        rw [PyRat.toRat_add hs11w hbw1, PyRat.toRat_add hs11w hbw2]
        exact add_le_add (le_refl _) hble
      · show (s21.add c1).toRat ≤ (s21.add c2).toRat
        rw [PyRat.toRat_add hs21w hcw1, PyRat.toRat_add hs21w hcw2]
        exact add_le_add (le_refl _) hcle

theorem calcCarbonFootprint_ok {L : List Val} {company : PyDict} {fp : CarbonFootprint}
    (h : calcCarbonFootprint L company = Except.ok fp) :
    ∃ F S1 S2 pe, footprintLoop L = Except.ok (F, S1, S2) ∧
      perEmployeeEmissions (S1.add S2) ((dlookup company "employees").getD (Val.int 1))
        = Except.ok pe ∧
      fp = { total_annual := S1.add S2, scope1 := S1, scope2 := S2,
             emissions_per_sqm :=
               if (PyRat.ofInt 0).lt F then (S1.add S2).div F else PyRat.ofInt 0,
             emissions_per_employee := pe } := by
  unfold calcCarbonFootprint at h
  simp only [exceptBind_ok] at h
  obtain ⟨t, ht, h⟩ := h
  obtain ⟨F, S1, S2⟩ := t
  simp only [exceptBind_ok] at h
  obtain ⟨pe, hpe, h⟩ := h
  rw [exceptPure_ok] at h
  exact ⟨F, S1, S2, pe, ht, hpe, h.symm⟩

theorem perEmployee_ok {tA : PyRat} {emp : Val} {r : PyRat}
    (h : perEmployeeEmissions tA emp = Except.ok r) :
    ∃ a, emp.asNum? = some a ∧
      ((PyRat.ofInt 0).lt a = true ∧ r = tA.div a ∨
       (PyRat.ofInt 0).lt a = false ∧ r = PyRat.ofInt 0) := by
  unfold perEmployeeEmissions at h
  cases ha : emp.asNum? with
  | none =>
      rw [show pyGtNum? emp (PyRat.ofInt 0) = Except.error "TypeError" from by
        simp [pyGtNum?, ha]] at h
      exact absurd h (by simp [Bind.bind, Except.bind])
  | some a =>
      rw [show pyGtNum? emp (PyRat.ofInt 0) = Except.ok ((PyRat.ofInt 0).lt a) from by
        simp [pyGtNum?, ha], ok_bind] at h
      refine ⟨a, rfl, ?_⟩
      by_cases hlt : (PyRat.ofInt 0).lt a = true
      · rw [if_pos hlt] at h
        rw [show emp.toNum? = Except.ok a from by simp [Val.toNum?, ha], ok_bind,
          exceptPure_ok] at h
        exact Or.inl ⟨hlt, h.symm⟩
      · rw [if_neg hlt] at h
        rw [exceptPure_ok] at h
        exact Or.inr ⟨Bool.of_not_eq_true hlt, h.symm⟩

/-- C4: varying one location's monthly consumption for one of the four
footprint utilities (electricity, district cooling, natural gas, LPG), with
everything else fixed, moves every `calculate_carbon_footprint` output
monotonically (non-decreasing); and on an empty location list every output
of `calculate_carbon_footprint` is zero. -/
theorem calcCarbonFootprint_monotone_and_empty :
    (∀ (L : List Val) (i : Nat) (u : String) (q1 q2 : PyRat) (company : PyDict)
      (fp1 fp2 : CarbonFootprint),
      u ∈ footprintUtilityKinds → q1.wf → q2.wf → q1.toRat ≤ q2.toRat →
      (modifyAt L i (fun loc => setConsumption loc u q1)).all Val.wfNums = true →
      (modifyAt L i (fun loc => setConsumption loc u q2)).all Val.wfNums = true →
      calcCarbonFootprint (modifyAt L i (fun loc => setConsumption loc u q1)) company
        = Except.ok fp1 →
      calcCarbonFootprint (modifyAt L i (fun loc => setConsumption loc u q2)) company
        = Except.ok fp2 →
      fp1.total_annual.toRat ≤ fp2.total_annual.toRat ∧
      fp1.scope1.toRat ≤ fp2.scope1.toRat ∧
      fp1.scope2.toRat ≤ fp2.scope2.toRat ∧
      fp1.emissions_per_sqm.toRat ≤ fp2.emissions_per_sqm.toRat ∧
      fp1.emissions_per_employee.toRat ≤ fp2.emissions_per_employee.toRat) ∧
    (∀ (company : PyDict) (fp : CarbonFootprint),
      calcCarbonFootprint [] company = Except.ok fp →
      fp.total_annual.toRat = 0 ∧ fp.scope1.toRat = 0 ∧ fp.scope2.toRat = 0 ∧
      fp.emissions_per_sqm.toRat = 0 ∧ fp.emissions_per_employee.toRat = 0) := by
  constructor
  · intro L i u q1 q2 company fp1 fp2 hu hq1 hq2 hle hall1 hall2 h1 h2
    obtain ⟨F1, S11, S21, pe1, hloop1, hpe1, hfp1⟩ := calcCarbonFootprint_ok h1
    obtain ⟨F2, S12, S22, pe2, hloop2, hpe2, hfp2⟩ := calcCarbonFootprint_ok h2
    obtain ⟨hFeq, hS1le, hS2le⟩ :=
      footprintLoop_update_mono L i u q1 q2 hq1 hq2 hle (F1, S11, S21) (F2, S12, S22)
        hall1 hall2 hloop1 hloop2
    have hFeq' : F1 = F2 := hFeq
    have hS1le' : S11.toRat ≤ S12.toRat := hS1le
    have hS2le' : S21.toRat ≤ S22.toRat := hS2le
    subst hFeq'
    obtain ⟨hF1w, hS11w, hS21w⟩ := footprintLoop_wf hall1 hloop1
    obtain ⟨hF2w, hS12w, hS22w⟩ := footprintLoop_wf hall2 hloop2
    have htA1w : (S11.add S21).wf := PyRat.wf_add hS11w hS21w
    have htA2w : (S12.add S22).wf := PyRat.wf_add hS12w hS22w
    have htAle : (S11.add S21).toRat ≤ (S12.add S22).toRat := by
      rw [PyRat.toRat_add hS11w hS21w, PyRat.toRat_add hS12w hS22w]
      exact add_le_add hS1le' hS2le'
    have e1t : fp1.total_annual = S11.add S21 := by rw [hfp1]
    have e2t : fp2.total_annual = S12.add S22 := by rw [hfp2]
    have e1s1 : fp1.scope1 = S11 := by rw [hfp1]
    have e2s1 : fp2.scope1 = S12 := by rw [hfp2]
    have e1s2 : fp1.scope2 = S21 := by rw [hfp1]
    have e2s2 : fp2.scope2 = S22 := by rw [hfp2]
    have e1sq : fp1.emissions_per_sqm =
        if (PyRat.ofInt 0).lt F1 then (S11.add S21).div F1 else PyRat.ofInt 0 := by
      rw [hfp1]
    have e2sq : fp2.emissions_per_sqm =
        if (PyRat.ofInt 0).lt F1 then (S12.add S22).div F1 else PyRat.ofInt 0 := by
      rw [hfp2]
    have e1pe : fp1.emissions_per_employee = pe1 := by rw [hfp1]
    have e2pe : fp2.emissions_per_employee = pe2 := by rw [hfp2]
    rw [e1t, e2t, e1s1, e2s1, e1s2, e2s2, e1sq, e2sq, e1pe, e2pe]
    refine ⟨htAle, hS1le', hS2le', ?_, ?_⟩
    · by_cases hF : (PyRat.ofInt 0).lt F1 = true
      · rw [if_pos hF, if_pos hF]
        have hFpos : 0 < F1.toRat := by
          have hh := (PyRat.lt_iff (PyRat.wf_ofInt 0) hF1w).mp hF
          rw [PyRat.toRat_ofInt] at hh
          exact_mod_cast hh
        rw [PyRat.toRat_div htA1w hF1w, PyRat.toRat_div htA2w hF1w]
        exact div_le_div_of_nonneg_right htAle hFpos.le
      · rw [if_neg hF, if_neg hF]
    · obtain ⟨a1, ha1, hd1⟩ := perEmployee_ok hpe1
      obtain ⟨a2, ha2, hd2⟩ := perEmployee_ok hpe2
      rw [ha1] at ha2
      injection ha2 with ha2
      subst ha2
      rcases hd1 with ⟨hlt1, hr1⟩ | ⟨hlt1, hr1⟩
      · rcases hd2 with ⟨hlt2, hr2⟩ | ⟨hlt2, hr2⟩
        · subst hr1
          subst hr2
          by_cases hda : a1.d = 0
          · rw [PyRat.toRat_div_dzero hda, PyRat.toRat_div_dzero hda]
          · have haw : a1.wf := Nat.pos_of_ne_zero hda
            have hapos : 0 < a1.toRat := by
              have hn : 0 < a1.n := by
                have hh := hlt1
                simp [PyRat.lt, PyRat.ofInt] at hh
                exact hh
              unfold PyRat.toRat
              apply div_pos
              · exact_mod_cast hn
              · exact_mod_cast haw
            rw [PyRat.toRat_div htA1w haw, PyRat.toRat_div htA2w haw]
            exact div_le_div_of_nonneg_right htAle hapos.le
        · rw [hlt1] at hlt2
          simp at hlt2
      · rcases hd2 with ⟨hlt2, hr2⟩ | ⟨hlt2, hr2⟩
        · rw [hlt2] at hlt1
          simp at hlt1
        · subst hr1
          subst hr2
          exact le_refl _
  · intro company fp h
    obtain ⟨F, S1, S2, pe, hloop, hpe, hfp⟩ := calcCarbonFootprint_ok h
    rw [show footprintLoop [] =
      Except.ok (PyRat.ofInt 0, PyRat.ofInt 0, PyRat.ofInt 0) from rfl] at hloop
    injection hloop with hloop
    obtain ⟨hF, hS1, hS2⟩ : PyRat.ofInt 0 = F ∧ PyRat.ofInt 0 = S1 ∧ PyRat.ofInt 0 = S2 := by
      simpa using hloop
    subst hF
    subst hS1
    subst hS2
    have e1 : fp.total_annual = (PyRat.ofInt 0).add (PyRat.ofInt 0) := by rw [hfp]
    have e2 : fp.scope1 = PyRat.ofInt 0 := by rw [hfp]
    have e3 : fp.scope2 = PyRat.ofInt 0 := by rw [hfp]
    have e4 : fp.emissions_per_sqm =
        if (PyRat.ofInt 0).lt (PyRat.ofInt 0)
        then ((PyRat.ofInt 0).add (PyRat.ofInt 0)).div (PyRat.ofInt 0)
        else PyRat.ofInt 0 := by rw [hfp]
    have e5 : fp.emissions_per_employee = pe := by rw [hfp]
    refine ⟨?_, ?_, ?_, ?_, ?_⟩
    · rw [e1]
      norm_num [PyRat.add, PyRat.ofInt, PyRat.toRat]
    · rw [e2]
      norm_num [PyRat.ofInt, PyRat.toRat]
    · rw [e3]
      norm_num [PyRat.ofInt, PyRat.toRat]
    · rw [e4, if_neg (by decide)]
      norm_num [PyRat.ofInt, PyRat.toRat]
    · rw [e5]
      obtain ⟨a, ha, hd⟩ := perEmployee_ok hpe
      rcases hd with ⟨hlt, hr⟩ | ⟨hlt, hr⟩
      · subst hr
        exact PyRat.toRat_div_zero_num (by decide)
      · subst hr
        norm_num [PyRat.ofInt, PyRat.toRat]

/-- C4 witness: the theorem applied to a one-location input whose
electricity consumption is raised from 100 to 200, and to the empty
location list. -/
theorem calcCarbonFootprint_monotone_and_empty_witness :
    ("electricity" ∈ footprintUtilityKinds ∧
      (PyRat.mk 100 1).wf ∧ (PyRat.mk 200 1).wf ∧
      (PyRat.mk 100 1).toRat ≤ (PyRat.mk 200 1).toRat ∧
      (modifyAt c4Locations 0
        (fun loc => setConsumption loc "electricity" (PyRat.mk 100 1))).all
          Val.wfNums = true ∧
      (modifyAt c4Locations 0
        (fun loc => setConsumption loc "electricity" (PyRat.mk 200 1))).all
          Val.wfNums = true ∧
      calcCarbonFootprint (modifyAt c4Locations 0
          (fun loc => setConsumption loc "electricity" (PyRat.mk 100 1)))
          [("employees", Val.int 10)]
        = Except.ok ⟨⟨562800, 1000000⟩, ⟨0, 1⟩, ⟨562800, 1000000⟩,
            ⟨562800, 100000000⟩, ⟨562800, 10000000⟩⟩ ∧
      calcCarbonFootprint (modifyAt c4Locations 0
          (fun loc => setConsumption loc "electricity" (PyRat.mk 200 1)))
          [("employees", Val.int 10)]
        = Except.ok ⟨⟨1125600, 1000000⟩, ⟨0, 1⟩, ⟨1125600, 1000000⟩,
            ⟨1125600, 100000000⟩, ⟨1125600, 10000000⟩⟩ ∧
      calcCarbonFootprint [] [] =
        Except.ok ⟨⟨0, 1⟩, ⟨0, 1⟩, ⟨0, 1⟩, ⟨0, 1⟩, ⟨0, 1⟩⟩) ∧
    ((⟨⟨562800, 1000000⟩, ⟨0, 1⟩, ⟨562800, 1000000⟩, ⟨562800, 100000000⟩,
        ⟨562800, 10000000⟩⟩ : CarbonFootprint).total_annual.toRat ≤
      (⟨⟨1125600, 1000000⟩, ⟨0, 1⟩, ⟨1125600, 1000000⟩, ⟨1125600, 100000000⟩,
        ⟨1125600, 10000000⟩⟩ : CarbonFootprint).total_annual.toRat ∧
     (⟨⟨562800, 1000000⟩, ⟨0, 1⟩, ⟨562800, 1000000⟩, ⟨562800, 100000000⟩,
        ⟨562800, 10000000⟩⟩ : CarbonFootprint).scope2.toRat ≤
      (⟨⟨1125600, 1000000⟩, ⟨0, 1⟩, ⟨1125600, 1000000⟩, ⟨1125600, 100000000⟩,
        ⟨1125600, 10000000⟩⟩ : CarbonFootprint).scope2.toRat) ∧
    ((⟨⟨0, 1⟩, ⟨0, 1⟩, ⟨0, 1⟩, ⟨0, 1⟩, ⟨0, 1⟩⟩ : CarbonFootprint).total_annual.toRat = 0 ∧
     (⟨⟨0, 1⟩, ⟨0, 1⟩, ⟨0, 1⟩, ⟨0, 1⟩, ⟨0, 1⟩⟩ :
        CarbonFootprint).emissions_per_employee.toRat = 0) := by
  have hmono := calcCarbonFootprint_monotone_and_empty.1 c4Locations 0 "electricity"
    (PyRat.mk 100 1) (PyRat.mk 200 1) [("employees", Val.int 10)]
    ⟨⟨562800, 1000000⟩, ⟨0, 1⟩, ⟨562800, 1000000⟩, ⟨562800, 100000000⟩,
      ⟨562800, 10000000⟩⟩
    ⟨⟨1125600, 1000000⟩, ⟨0, 1⟩, ⟨1125600, 1000000⟩, ⟨1125600, 100000000⟩,
      ⟨1125600, 10000000⟩⟩
    (by decide) (by decide) (by decide) (by norm_num [PyRat.toRat])
    (by decide) (by decide) (by decide) (by decide)
  have hempty := calcCarbonFootprint_monotone_and_empty.2 []
    ⟨⟨0, 1⟩, ⟨0, 1⟩, ⟨0, 1⟩, ⟨0, 1⟩, ⟨0, 1⟩⟩ (by decide)
  exact ⟨⟨by decide, by decide, by decide, by norm_num [PyRat.toRat], by decide,
      by decide, by decide, by decide, by decide⟩,
    ⟨hmono.1, hmono.2.2.1⟩, ⟨hempty.1, hempty.2.2.2.2⟩⟩
